import Mathlib

set_option linter.unusedVariables false

/- Verification of the session-memory and turn-processing pipeline of the
   ai-therapist backend (src/src/controllers/chat.ts and related files).
   JavaScript string and regex primitives used by the controllers are
   modelled explicitly on character lists. -/

namespace JsStr

/-- ASCII fragment of the JavaScript whitespace class used by trim, the
regex class backslash-s and String.prototype.trim; the texts handled by the
controllers are ASCII. -/
def isWS (c : Char) : Bool :=
  c == ' ' || c == '\t' || c == '\n' || c == '\r' || c == Char.ofNat 11 || c == Char.ofNat 12

/-- A word character in the sense of the regex class backslash-w. -/
def isWordChar (c : Char) : Bool :=
  c.isAlpha || c.isDigit || c == '_'

/-- Case-sensitive test that p occurs at the start of s. -/
def hasPre : List Char → List Char → Bool
  | [], _ => true
  | _ :: _, [] => false
  | p :: ps, c :: cs => p == c && hasPre ps cs

/-- Case-insensitive test that p occurs at the start of s. -/
def hasPreCI : List Char → List Char → Bool
  | [], _ => true
  | _ :: _, [] => false
  | p :: ps, c :: cs => p.toLower == c.toLower && hasPreCI ps cs

/-- Substring containment on character lists. -/
def containsSubL (needle : List Char) : List Char → Bool
  | [] => needle.isEmpty
  | c :: cs => hasPre needle (c :: cs) || containsSubL needle cs

/-- Substring containment, String wrapper. -/
def containsSub (needle hay : String) : Bool :=
  containsSubL needle.data hay.data

/-- Lowercase a character list (JavaScript toLowerCase on ASCII input). -/
def lowerL (s : List Char) : List Char := s.map Char.toLower

/-- Global replacement of a literal alternation, as in a JavaScript
String.replace with the g flag over an alternation of plain words; the
alternatives are tried in order at each input position and matching resumes
after the substituted text.  The fuel argument is instantiated with the
input length, which bounds the number of scanning steps. -/
def replAlts (alts : List (List Char)) (rep : List Char) (ci : Bool) :
    Nat → List Char → List Char
  | 0, s => s
  | _ + 1, [] => []
  | n + 1, c :: cs =>
    match alts.find? (fun p =>
        !p.isEmpty && (if ci then hasPreCI p (c :: cs) else hasPre p (c :: cs))) with
    | some p => rep ++ replAlts alts rep ci n ((c :: cs).drop p.length)
    | none => c :: replAlts alts rep ci n cs

/-- String wrapper for replAlts. -/
def jsReplace (alts : List String) (rep : String) (ci : Bool) (s : String) : String :=
  ⟨replAlts (alts.map String.data) rep.data ci s.data.length s.data⟩

/-- Scan for the nearest occurrence of the closing delimiter; a JavaScript
dot does not match a line terminator, so the lazy inner group fails when a
newline is reached first.  Returns the inner text and the remainder after
the close. -/
def scanClose (cls : List Char) : List Char → Option (List Char × List Char)
  | [] => none
  | c :: cs =>
    if hasPre cls (c :: cs) then some ([], (c :: cs).drop cls.length)
    else if c == '\n' then none
    else
      match scanClose cls cs with
      | some (inner, rest) => some (c :: inner, rest)
      | none => none

/-- Global replacement of a lazily matched delimited region, as in the
regexes of TextCleaner such as two asterisks around a lazy group: when keep
is true the inner text is kept (the dollar-one substitution), otherwise the
whole region is removed.  When the close is not found before a newline or
the end, the scan advances one character, as regex backtracking does. -/
def replEncl (opn cls : List Char) (keep : Bool) : Nat → List Char → List Char
  | 0, s => s
  | _ + 1, [] => []
  | n + 1, c :: cs =>
    if hasPre opn (c :: cs) && !opn.isEmpty then
      match scanClose cls ((c :: cs).drop opn.length) with
      | some (inner, rest) =>
          (if keep then inner else []) ++ replEncl opn cls keep n rest
      | none => c :: replEncl opn cls keep n cs
    else c :: replEncl opn cls keep n cs

/-- String wrapper for replEncl. -/
def jsReplEncl (opn cls : String) (keep : Bool) (s : String) : String :=
  ⟨replEncl opn.data cls.data keep s.data.length s.data⟩

/-- Collapse every whitespace run into a single space (replacement of the
one-or-more whitespace class by a space, g flag). -/
def collapseWS : List Char → List Char
  | [] => []
  | c :: cs =>
    if isWS c then
      match collapseWS cs with
      | [] => [' ']
      | d :: ds => if d == ' ' then ' ' :: ds else ' ' :: d :: ds
    else c :: collapseWS cs

/-- JavaScript String.prototype.trim on a character list. -/
def jsTrimL (s : List Char) : List Char :=
  ((s.dropWhile fun c => isWS c).reverse.dropWhile fun c => isWS c).reverse

/-- JavaScript String.prototype.trim. -/
def jsTrimS (s : String) : String := ⟨jsTrimL s.data⟩

/-- Split on newline characters, keeping empty lines, like the per-line
processing of an anchored multiline regex. -/
def splitNL : List Char → List (List Char)
  | [] => [[]]
  | c :: cs =>
    let r := splitNL cs
    if c == '\n' then [] :: r
    else
      match r with
      | [] => [[c]]
      | l :: ls => (c :: l) :: ls

/-- Rejoin lines with newline characters. -/
def joinNL (ls : List (List Char)) : List Char :=
  match ls with
  | [] => []
  | [l] => l
  | l :: ls => l ++ '\n' :: joinNL ls

/-- Strip a leading heading marker from one line: one or more hash signs
followed by at least one whitespace character (anchored multiline regex in
cleanTherapeuticResponse). -/
def stripHeading (l : List Char) : List Char :=
  let hs := l.takeWhile fun c => c == '#'
  let rest := l.drop hs.length
  if hs.length ≥ 1 &&
      (match rest with | c :: _ => isWS c | [] => false) then
    rest.dropWhile fun c => isWS c
  else l

/-- Strip a leading list bullet from one line: one of minus, asterisk or
plus followed by at least one whitespace character. -/
def stripBullet (l : List Char) : List Char :=
  match l with
  | c :: rest =>
    if (c == '-' || c == '*' || c == '+') &&
        (match rest with | d :: _ => isWS d | [] => false) then
      rest.dropWhile fun d => isWS d
    else l
  | [] => l

/-- Strip a leading numbered-list marker from one line: digits, a dot, then
at least one whitespace character. -/
def stripNumbered (l : List Char) : List Char :=
  let ds := l.takeWhile fun c => c.isDigit
  let rest := l.drop ds.length
  if ds.length ≥ 1 then
    match rest with
    | '.' :: rest2 =>
      if (match rest2 with | c :: _ => isWS c | [] => false) then
        rest2.dropWhile fun c => isWS c
      else l
    | _ => l
  else l

/-- Apply a per-line transformation, modelling an anchored regex with the
g and m flags. -/
def perLine (f : List Char → List Char) (s : List Char) : List Char :=
  joinNL ((splitNL s).map f)

/-- Replace every run of two or more double or single quotes by one double
quote (the quote-run regex of cleanTherapeuticResponse). -/
def quoteRuns : Nat → List Char → List Char
  | 0, s => s
  | _ + 1, [] => []
  | n + 1, c :: cs =>
    if c == '"' || c == Char.ofNat 39 then
      let run := (c :: cs).takeWhile fun d => d == '"' || d == Char.ofNat 39
      if run.length ≥ 2 then '"' :: quoteRuns n ((c :: cs).drop run.length)
      else c :: quoteRuns n cs
    else c :: quoteRuns n cs

/-- Whether a reversed sentence accumulator ends with sentence punctuation. -/
def lastIsPunct (cur : List Char) : Bool :=
  match cur with
  | p :: _ => p == '.' || p == '!' || p == '?'
  | [] => false

/-- Split into sentences at whitespace runs that follow a dot, an
exclamation mark or a question mark (the lookbehind split regex of
formatParagraphs). -/
def splitSentGo : Nat → List Char → List Char → List (List Char)
  | 0, cur, rest => [cur.reverse ++ rest]
  | _ + 1, cur, [] => [cur.reverse]
  | n + 1, cur, c :: cs =>
    if isWS c && lastIsPunct cur then
      let ws := (c :: cs).takeWhile isWS
      cur.reverse :: splitSentGo n [] ((c :: cs).drop ws.length)
    else splitSentGo n (c :: cur) cs

/-- Sentence split, wrapper. -/
def splitSent (s : List Char) : List (List Char) :=
  splitSentGo s.length [] s

/-- Join with single spaces. -/
def joinSpace (ls : List (List Char)) : List Char :=
  match ls with
  | [] => []
  | [l] => l
  | l :: ls => l ++ ' ' :: joinSpace ls

end JsStr

namespace JsStr

/-- Remove one leading conversational filler word, modelling the anchored
case-insensitive regex of cleanTherapeuticContent (alternation of okay,
well, so, now, alright, then an optional comma and optional whitespace);
anchored without the m flag, so at most one removal happens. -/
def stripLeadFiller (s : List Char) : List Char :=
  match ["okay", "well", "so", "now", "alright"].find? (fun w => hasPreCI w.data s) with
  | some w =>
    let r := s.drop w.length
    let r2 := match r with
      | c :: t => if c == ',' then t else r
      | [] => r
    r2.dropWhile fun c => isWS c
  | none => s

/-- Scan for the nearest position where one of the closing alternatives
matches (tried in list order); fails at a newline or the end of input, as
the lazy dot group does.  Returns the remainder after the close. -/
def scanCloseAlt (closes : List (List Char)) (ci : Bool) : List Char → Option (List Char)
  | [] => none
  | c :: cs =>
    match closes.find? (fun p =>
        !p.isEmpty && (if ci then hasPreCI p (c :: cs) else hasPre p (c :: cs))) with
    | some p => some ((c :: cs).drop p.length)
    | none => if c == '\n' then none else scanCloseAlt closes ci cs

/-- Global removal of a region that starts with a literal opener and runs
lazily to the nearest closing alternative (the based-on regex of
cleanTherapeuticContent). -/
def replLazyTo (opn : List Char) (closes : List (List Char)) (ci : Bool) :
    Nat → List Char → List Char
  | 0, s => s
  | _ + 1, [] => []
  | n + 1, c :: cs =>
    if (if ci then hasPreCI opn (c :: cs) else hasPre opn (c :: cs)) && !opn.isEmpty then
      match scanCloseAlt closes ci ((c :: cs).drop opn.length) with
      | some rest => replLazyTo opn closes ci n rest
      | none => c :: replLazyTo opn closes ci n cs
    else c :: replLazyTo opn closes ci n cs

/-- Uppercase the first character (charAt-zero toUpperCase concatenation). -/
def capFirst : List Char → List Char
  | [] => []
  | c :: cs => c.toUpper :: cs

end JsStr

/- Text post-processing utility from src/src/controllers/chat.ts
(lines 1435-1527).  Prompt strings fed to the generative capability are not
part of this model; the cleaning functions are modelled in full. -/
namespace TextCleaner

open JsStr

/-- Terminal-punctuation guard of TextCleaner (chat.ts line 1495). -/
def ensureProperPunctuation (text : List Char) : List Char :=
  match text with
  | [] => text
  | _ =>
    match text.getLast? with
    | some lc => if lc == '.' || lc == '!' || lc == '?' then text else text ++ ['.']
    | none => text

/-- Paragraph regrouping of TextCleaner.formatParagraphs (chat.ts line
1464): sentences are trimmed, empty ones skipped, grouped two per
paragraph, the final group flushed, and every paragraph gets terminal
punctuation. -/
def formatParaGo : List (List Char) → List (List Char) → List (List Char)
  | [], cur =>
    if cur.isEmpty then [] else [ensureProperPunctuation (JsStr.joinSpace cur)]
  | s :: rest, cur =>
    let t := JsStr.jsTrimL s
    if t.isEmpty then formatParaGo rest cur
    else
      let cur2 := cur ++ [t]
      if cur2.length ≥ 2 || rest.isEmpty then
        ensureProperPunctuation (JsStr.joinSpace cur2) :: formatParaGo rest []
      else formatParaGo rest cur2

/-- Join paragraphs with blank lines. -/
def joinPara (ls : List (List Char)) : List Char :=
  match ls with
  | [] => []
  | [l] => l
  | l :: ls => l ++ '\n' :: '\n' :: joinPara ls

/-- TextCleaner.formatParagraphs (chat.ts lines 1464-1493). -/
def formatParagraphs (text : List Char) : List Char :=
  joinPara (formatParaGo (JsStr.splitSent text) [])

/-- TextCleaner.cleanTherapeuticResponse (chat.ts lines 1436-1462): strip
markup artifacts, collapse whitespace, remove bracketed regions, normalize
quote runs, and re-segment into short paragraphs. -/
def cleanTherapeuticResponse (text : String) : String :=
  if text = "" then
    "I\x27m here to listen. Could you tell me more about what you\x27re experiencing?"
  else
    let s1 := replEncl "**".data "**".data true text.data.length text.data
    let s2 := replEncl "*".data "*".data true s1.length s1
    let s3 := replEncl "\x60".data "\x60".data true s2.length s2
    let s4 := replEncl "~~".data "~~".data true s3.length s3
    let s5 := perLine stripHeading s4
    let s6 := perLine stripBullet s5
    let s7 := perLine stripNumbered s6
    let s8 := collapseWS s7
    let s9 := jsTrimL s8
    let s10 := replEncl "[".data "]".data false s9.length s9
    let s11 := replEncl "(".data ")".data false s10.length s10
    let s12 := replEncl [Char.ofNat 123] [Char.ofNat 125] false s11.length s11
    let s13 := replEncl "<".data ">".data false s12.length s12
    let s14 := replAlts ["\\n".data] "\n".data false s13.length s13
    let s15 := replEncl "+++".data "+++".data false s14.length s14
    let s16 := replEncl "~~~".data "~~~".data false s15.length s15
    let s17 := quoteRuns s16.length s16
    let s18 := jsTrimL s17
    ⟨formatParagraphs s18⟩

/-- TextCleaner.cleanTherapeuticContent (chat.ts lines 1504-1518): the
cleaned response with leading filler, persona-leak phrases and model
references removed, first letter capitalized.  There is no denylist scan
and no substitution of a fixed safety fallback anywhere in this function. -/
def cleanTherapeuticContent (text : String) : String :=
  let cleaned := (cleanTherapeuticResponse text).data
  let s1 := stripLeadFiller cleaned
  let s2 := replAlts ["as an ai therapist".data, "as an ai".data] [] true s1.length s1
  let s3 := replAlts ["as a therapist".data] [] true s2.length s2
  let s4 := replLazyTo "based on".data ["model".data, "ai".data, "gpt".data] true s3.length s3
  let s5 := jsTrimL s4
  ⟨capFirst s5⟩

end TextCleaner

/- Data model from src/src/models/ChatSession.ts.  Mongoose Date values
are modelled as abstract clock readings (Nat); object ids as strings. -/

/-- Message author role (ChatSession.ts line 4). -/
inductive Role where
  | user
  | assistant
deriving DecidableEq, Repr

/-- The metadata.analysis blob is schemaless (Schema.Types.Mixed); this
record carries every field that some iteration of the controllers reads or
writes, each optional.  Absent fields are none. -/
structure StoredAnalysis where
  emotion : Option String := none
  emotionalState : Option String := none
  themes : Option (List String) := none
  mainThoughts : Option (List String) := none
  cognitivePatterns : Option (List String) := none
  recommendedTechniques : Option (List String) := none
  technique : Option String := none
  progressIndicators : Option (List String) := none
  intensity : Option ℚ := none
  primaryThemes : Option (List String) := none
  riskLevel : Option ℚ := none
  recommendedApproach : Option String := none
  specificTechniques : Option (List String) := none
  underlyingNeeds : Option (List String) := none
  therapeuticFocus : Option String := none
  safetyCheck : Option Bool := none
  automaticThoughts : Option (List String) := none
  cognitiveDistortions : Option (List String) := none
  primaryEmotion : Option String := none
  emotionalIntensity : Option ℚ := none
  recommendedCbtTechniques : Option (List String) := none
deriving DecidableEq, Repr

/-- Message metadata (ChatSession.ts line 7 plus the extra keys written by
the controllers through the schemaless Mixed field). -/
structure MsgMetadata where
  analysis : Option StoredAnalysis := none
  technique : Option String := none
  focus : Option String := none
  riskLevel : Option ℚ := none
  progressEmotionalState : Option String := none
  progressRiskLevel : Option ℚ := none
  therapeuticTechnique : Option String := none
  therapeuticIntervention : Option String := none
  therapeuticHomework : Option String := none
  therapeuticDistortions : Option (List String) := none
  therapeuticProgressIndicators : Option (List String) := none
deriving DecidableEq, Repr

/-- One chat message (IChatMessage). -/
structure ChatMessage where
  role : Role
  content : String
  timestamp : Nat
  metadata : Option MsgMetadata := none
deriving DecidableEq, Repr

/-- Session lifecycle status (ChatSession.ts status enum). -/
inductive SessionStatus where
  | active
  | completed
  | archived
deriving DecidableEq, Repr

/-- One chat session (IChatSession). -/
structure ChatSessionRec where
  sessionId : String
  userId : String
  startTime : Nat
  status : SessionStatus
  messages : List ChatMessage
deriving DecidableEq, Repr

/-- Outcome of one generative-text invocation: the call either throws or
yields raw message content (an absent or null content field behaves like
the empty string because of the optional-chaining plus default). -/
inductive GenTextOutcome where
  | throws
  | returns (content : String)
deriving DecidableEq, Repr

/- The enhanced-memory controller variant of src/src/controllers/chat.ts
(lines 530-1233): SessionMemory, getSessionMemory, analyzeMessageWithMemory,
generateTherapeuticResponse, sendMessage, updateUserPreferences. -/
namespace ChatMemory

open JsStr

/-- SessionMemory.progressIndicators (chat.ts line 558). -/
structure ProgressIndicators where
  emotionalAwareness : Nat
  copingSkills : Nat
  selfReflection : Nat
  resilience : Nat
deriving DecidableEq, Repr

/-- SessionMemory.userPreferences (chat.ts line 566). -/
structure UserPreferences where
  name : Option String
  communicationStyle : Option String
  preferredTopics : Option (List String)
  avoidedTopics : Option (List String)
  therapeuticGoals : Option (List String)
deriving DecidableEq, Repr

/-- SessionMemory.context (chat.ts line 575). -/
structure MemoryContext where
  lastEmotionalState : String
  lastTechniqueUsed : String
  sessionProgress : ℚ
  trustLevel : ℚ
deriving DecidableEq, Repr

/-- SessionMemory (chat.ts lines 553-581). -/
structure SessionMemory where
  emotionalPatterns : List String
  conversationThemes : List String
  therapeuticTechniques : List String
  progressIndicators : ProgressIndicators
  userPreferences : UserPreferences
  context : MemoryContext
deriving DecidableEq, Repr

/-- The fresh memory object built at the start of getSessionMemory
(chat.ts lines 607-624). -/
def defaultSessionMemory : SessionMemory :=
  { emotionalPatterns := []
    conversationThemes := []
    therapeuticTechniques := []
    progressIndicators := ⟨0, 0, 0, 0⟩
    userPreferences := ⟨none, none, none, none, none⟩
    context :=
      { lastEmotionalState := "neutral"
        lastTechniqueUsed := "validation"
        sessionProgress := 0
        trustLevel := 50 } }

/-- JavaScript or-default on an optional string: an absent or empty string
is falsy. -/
def jsOrStr : Option String → String → String
  | some s, d => if s = "" then d else s
  | none, d => d

/-- JavaScript or-chaining of two optional strings, keeping the first
truthy value. -/
def jsOrOptStr : Option String → Option String → Option String
  | some s, o => if s = "" then o else some s
  | none, o => o

/-- JavaScript truthiness of an optional string. -/
def truthyStr : Option String → Bool
  | some s => s ≠ ""
  | none => false

/-- JavaScript or-default on an optional number: zero is falsy. -/
def jsOrQ : Option ℚ → ℚ → ℚ
  | some q, d => if q = 0 then d else q
  | none, d => d

/-- JavaScript or-default on an optional array: any present array, even an
empty one, is truthy. -/
def jsOrList : Option (List String) → List String → List String
  | some l, _ => l
  | none, d => d

/-- JavaScript or-default on an optional boolean. -/
def jsOrBool : Option Bool → Bool → Bool
  | some b, d => if b then b else d
  | none, d => d

/-- JavaScript or-default on indexing the first array element. -/
def headOrStr (l : List String) (d : String) : String :=
  match l.head? with
  | some h => if h = "" then d else h
  | none => d

/-- Scan for a case-insensitive literal followed by at least one word
character and capture the word run (regexes such as my-name-is of chat.ts
line 671); when the capture fails at an occurrence the scan advances one
character, as regex backtracking does. -/
def findWordAfterGo (lit : List Char) : List Char → Option (List Char)
  | [] => none
  | c :: cs =>
    if hasPreCI lit (c :: cs) then
      let w := ((c :: cs).drop lit.length).takeWhile isWordChar
      if w.isEmpty then findWordAfterGo lit cs else some w
    else findWordAfterGo lit cs

/-- String wrapper for findWordAfterGo. -/
def findWordAfter (lit s : String) : Option String :=
  (findWordAfterGo lit.data s.data).map fun l => ⟨l⟩

/-- Try the i-apostrophe-m pattern of chat.ts line 674 at one position:
the letter i, an optional apostrophe or backquote, the letter m, a space,
then a captured word; the optional quote is greedy with backtracking. -/
def matchImAt (s : List Char) : Option (List Char) :=
  match s with
  | [] => none
  | c :: rest =>
    if c.toLower == 'i' then
      let tryTail : List Char → Option (List Char) := fun t =>
        match t with
        | m :: sp :: w =>
          if m.toLower == 'm' && sp == ' ' then
            let cap := w.takeWhile isWordChar
            if cap.isEmpty then none else some cap
          else none
        | _ => none
      match rest with
      | q :: t =>
        if q == Char.ofNat 39 || q == Char.ofNat 96 then
          match tryTail t with
          | some cap => some cap
          | none => tryTail rest
        else tryTail rest
      | [] => none
    else none

/-- Scan the whole content for the i-apostrophe-m pattern. -/
def findImGo : List Char → Option (List Char)
  | [] => none
  | c :: cs =>
    match matchImAt (c :: cs) with
    | some cap => some cap
    | none => findImGo cs

/-- String wrapper for findImGo. -/
def findIm (s : String) : Option String :=
  (findImGo s.data).map fun l => ⟨l⟩

/-- Lazy capture up to the nearest dot or the end of the input; a newline
before either makes the attempt fail, since the dot class excludes line
terminators and the dollar anchor matches only at the very end. -/
def lazyCapToDot : List Char → Option (List Char)
  | [] => some []
  | c :: cs =>
    if c == '.' then some []
    else if c == '\n' then none
    else
      match lazyCapToDot cs with
      | some cap => some (c :: cap)
      | none => none

/-- Scan for a case-insensitive literal followed by a lazy capture up to a
dot or the end (the want-to and goal-is-to regexes of chat.ts line 697). -/
def findGoalCapGo (lit : List Char) : List Char → Option (List Char)
  | [] => none
  | c :: cs =>
    if hasPreCI lit (c :: cs) then
      match lazyCapToDot ((c :: cs).drop lit.length) with
      | some cap => some cap
      | none => findGoalCapGo lit cs
    else findGoalCapGo lit cs

/-- String wrapper for findGoalCapGo. -/
def findGoalCap (lit s : String) : Option String :=
  (findGoalCapGo lit.data s.data).map fun l => ⟨l⟩

/-- Name extraction: the four namePatterns of chat.ts lines 671-676 tried
in order, each searched over the whole content. -/
def extractName (content : String) : Option String :=
  match findWordAfter "my name is " content with
  | some w => some w
  | none =>
    match findWordAfter "call me " content with
    | some w => some w
    | none =>
      match findIm content with
      | some w => some w
      | none => findWordAfter "i am " content

/-- One progress-indicator keyword scan of the stored-analysis replay
(chat.ts lines 666-693): awareness, coping, reflection and resilience
keywords bump the matching progress counter. -/
def indicatorStep (m : SessionMemory) (ind : String) : SessionMemory :=
  let low := String.mk (lowerL ind.data)
  let m :=
    if containsSub "awareness" low then
      { m with progressIndicators :=
          { m.progressIndicators with
            emotionalAwareness := m.progressIndicators.emotionalAwareness + 1 } }
    else m
  let m :=
    if containsSub "coping" low then
      { m with progressIndicators :=
          { m.progressIndicators with
            copingSkills := m.progressIndicators.copingSkills + 1 } }
    else m
  let m :=
    if containsSub "reflection" low then
      { m with progressIndicators :=
          { m.progressIndicators with
            selfReflection := m.progressIndicators.selfReflection + 1 } }
    else m
  if containsSub "resilience" low then
    { m with progressIndicators :=
        { m.progressIndicators with
          resilience := m.progressIndicators.resilience + 1 } }
  else m

/-- Fold step of getSessionMemory over one stored analysis blob (chat.ts
lines 630-664): emotion into the pattern list, first two themes into the
topic list, first two techniques into the technique list, indicator
keywords into the progress counters. -/
def rebuildMetaStep (a : StoredAnalysis) (mem : SessionMemory) : SessionMemory :=
  let mA :=
    match jsOrOptStr a.emotion a.emotionalState with
    | some e =>
      if e = "" then mem
      else
        { mem with
          emotionalPatterns := mem.emotionalPatterns ++ [e]
          context := { mem.context with lastEmotionalState := e } }
    | none => mem
  let mB :=
    if a.themes.isSome || a.mainThoughts.isSome then
      let ts :=
        match a.themes with
        | some l => l
        | none =>
          match a.mainThoughts with
          | some l => l
          | none => []
      { mA with conversationThemes := mA.conversationThemes ++ ts.take 2 }
    else mA
  let mC :=
    if a.recommendedTechniques.isSome || truthyStr a.technique then
      let techs :=
        match a.recommendedTechniques with
        | some l => l
        | none => [a.technique.getD ""]
      let mC1 :=
        { mB with therapeuticTechniques := mB.therapeuticTechniques ++ techs.take 2 }
      match a.technique with
      | some t =>
        if t = "" then mC1
        else { mC1 with context := { mC1.context with lastTechniqueUsed := t } }
      | none => mC1
    else mB
  match a.progressIndicators with
  | some inds => inds.foldl indicatorStep mC
  | none => mC

/-- Fold step of getSessionMemory over a user message (chat.ts lines
667-706): first self-introduction match becomes the display name, style
keywords set the communication style, want-to and goal-is matches append
therapeutic goals. -/
def rebuildUserStep (content : String) (mem : SessionMemory) : SessionMemory :=
  let low := String.mk (lowerL content.data)
  let m1 :=
    if truthyStr mem.userPreferences.name then mem
    else
      match extractName content with
      | some w =>
        { mem with userPreferences := { mem.userPreferences with name := some w } }
      | none => mem
  let m2 :=
    if containsSub "be direct" low || containsSub "straightforward" low then
      { m1 with userPreferences :=
          { m1.userPreferences with communicationStyle := some "direct" } }
    else if containsSub "be gentle" low || containsSub "soft" low then
      { m1 with userPreferences :=
          { m1.userPreferences with communicationStyle := some "gentle" } }
    else if containsSub "help me reflect" low then
      { m1 with userPreferences :=
          { m1.userPreferences with communicationStyle := some "reflective" } }
    else m1
  if containsSub "want to" low || containsSub "goal is" low then
    match
      (match findGoalCap "want to " content with
       | some cap => some cap
       | none => findGoalCap "goal is to " content) with
    | some cap =>
      { m2 with userPreferences :=
          { m2.userPreferences with
            therapeuticGoals :=
              some ((m2.userPreferences.therapeuticGoals.getD []) ++ [cap]) } }
    | none => m2
  else m2

/-- One iteration of the getSessionMemory forEach (chat.ts lines 628-716);
prevIsUser tells whether the message has a predecessor whose role is user,
which raises trust by two, capped at one hundred. -/
def rebuildStep (prevIsUser : Bool) (msg : ChatMessage) (mem : SessionMemory) :
    SessionMemory :=
  let m1 :=
    match msg.metadata.bind (·.analysis) with
    | some a => rebuildMetaStep a mem
    | none => mem
  let m2 := if msg.role = .user then rebuildUserStep msg.content m1 else m1
  if msg.role = .assistant && prevIsUser then
    { m2 with context :=
        { m2.context with trustLevel := min 100 (m2.context.trustLevel + 2) } }
  else m2

/-- The forEach over all persisted messages, threading the predecessor. -/
def rebuildFold : Option ChatMessage → List ChatMessage → SessionMemory → SessionMemory
  | _, [], mem => mem
  | prev, msg :: rest, mem =>
    let prevIsUser := match prev with | some p => p.role == .user | none => false
    rebuildFold (some msg) rest (rebuildStep prevIsUser msg mem)

/-- Cold reconstruction of SessionMemory from the persisted session
(chat.ts lines 606-720): replay every message, then set the progress
scalar from the message count. -/
def rebuildSessionMemory (db : Option ChatSessionRec) : SessionMemory :=
  match db with
  | some s =>
    if s.messages.isEmpty then defaultSessionMemory
    else
      let m := rebuildFold none s.messages defaultSessionMemory
      { m with context :=
          { m.context with
            sessionProgress := min 100 ((s.messages.length : ℚ) / 2 * 5) } }
  | none => defaultSessionMemory

/-- Lookup in the process-local memory cache (the sessionMemories Map). -/
def lookupCache (cache : List (String × SessionMemory)) (sid : String) :
    Option SessionMemory :=
  match cache with
  | [] => none
  | (k, v) :: rest => if k = sid then some v else lookupCache rest sid

/-- Store into the process-local memory cache, replacing an existing
entry for the key as Map.set does. -/
def setCache (cache : List (String × SessionMemory)) (sid : String)
    (m : SessionMemory) : List (String × SessionMemory) :=
  match cache with
  | [] => [(sid, m)]
  | (k, v) :: rest => if k = sid then (sid, m) :: rest else (k, v) :: setCache rest sid m

/-- getSessionMemory (chat.ts lines 601-724): return the cached memory on
a hit, otherwise rebuild from the persisted session and cache the result. -/
def getSessionMemory (cache : List (String × SessionMemory)) (sid : String)
    (db : Option ChatSessionRec) : SessionMemory × List (String × SessionMemory) :=
  match lookupCache cache sid with
  | some m => (m, cache)
  | none =>
    let m := rebuildSessionMemory db
    (m, setCache cache sid m)

/-- The structured analysis record returned by analyzeMessageWithMemory
(chat.ts lines 584-595). -/
structure MessageAnalysis where
  emotionalState : String
  intensity : ℚ
  primaryThemes : List String
  riskLevel : ℚ
  recommendedApproach : String
  specificTechniques : List String
  cognitivePatterns : List String
  underlyingNeeds : List String
  therapeuticFocus : String
  safetyCheck : Bool
deriving DecidableEq, Repr

/-- The JSON object decoded from the generated analysis text, with every
field optional; absent keys are none.  The behaviours quantified over here
follow the specification: a well-typed object possibly missing fields.  A
JSON value of the wrong type in a present field is outside this class. -/
structure ParsedAnalysis where
  emotionalState : Option String := none
  intensity : Option ℚ := none
  primaryThemes : Option (List String) := none
  riskLevel : Option ℚ := none
  recommendedApproach : Option String := none
  specificTechniques : Option (List String) := none
  cognitivePatterns : Option (List String) := none
  underlyingNeeds : Option (List String) := none
  therapeuticFocus : Option String := none
  safetyCheck : Option Bool := none
deriving DecidableEq, Repr

/-- Behaviour of the generative call made by analyzeMessageWithMemory: it
throws, returns an empty string (the or-default turns it into an empty
JSON object), returns text that is not JSON (JSON.parse throws and the
inner catch substitutes an empty object, chat.ts line 777), or returns a
decodable object. -/
inductive GenAnalysisOutcome where
  | throws
  | emptyOutput
  | garbage
  | parsed (p : ParsedAnalysis)
deriving DecidableEq, Repr

/-- The empty JSON object as a ParsedAnalysis. -/
def emptyParsed : ParsedAnalysis := {}

/-- The decoded object for each non-throwing behaviour. -/
def parsedOf : GenAnalysisOutcome → ParsedAnalysis
  | .parsed p => p
  | _ => emptyParsed

/-- The fully defaulted analysis returned by the outer catch of
analyzeMessageWithMemory (chat.ts lines 818-829). -/
def fallbackAnalysis : MessageAnalysis :=
  { emotionalState := "neutral"
    intensity := 5
    primaryThemes := ["exploring thoughts"]
    riskLevel := 0
    recommendedApproach := "validation"
    specificTechniques := ["active_listening"]
    cognitivePatterns := []
    underlyingNeeds := ["understanding"]
    therapeuticFocus := "emotional_processing"
    safetyCheck := false }

/-- The memory update performed after decoding (chat.ts lines 782-801):
push the emotion, the first two themes and the first two techniques, set
the context fields, bump the resilience and self-reflection counters. -/
def analyzeUpdateMemory (p : ParsedAnalysis) (memory : SessionMemory) : SessionMemory :=
  let emo := jsOrStr p.emotionalState "neutral"
  let m1 :=
    { memory with
      emotionalPatterns := memory.emotionalPatterns ++ [emo]
      context := { memory.context with lastEmotionalState := emo } }
  let m2 :=
    match p.primaryThemes with
    | some ts => { m1 with conversationThemes := m1.conversationThemes ++ ts.take 2 }
    | none => m1
  let m3 :=
    match p.specificTechniques with
    | some ts =>
      { m2 with
        therapeuticTechniques := m2.therapeuticTechniques ++ ts.take 2
        context := { m2.context with lastTechniqueUsed := headOrStr ts "validation" } }
    | none => m2
  let m4 :=
    if (match p.intensity with
        | some q => decide (q ≠ 0) && decide (q < 5)
        | none => false) then
      { m3 with progressIndicators :=
          { m3.progressIndicators with resilience := m3.progressIndicators.resilience + 1 } }
    else m3
  if (match p.cognitivePatterns with
      | some l => !l.isEmpty
      | none => false) then
    { m4 with progressIndicators :=
        { m4.progressIndicators with
          selfReflection := m4.progressIndicators.selfReflection + 1 } }
  else m4

/-- The analysis record assembled from the decoded object with the
documented neutral default substituted for each missing or falsy field
(chat.ts lines 804-815). -/
def analysisResultOf (p : ParsedAnalysis) : MessageAnalysis :=
  { emotionalState := jsOrStr p.emotionalState "reflective"
    intensity := jsOrQ p.intensity 5
    primaryThemes := jsOrList p.primaryThemes ["exploring thoughts"]
    riskLevel := jsOrQ p.riskLevel 0
    recommendedApproach := jsOrStr p.recommendedApproach "validation"
    specificTechniques := jsOrList p.specificTechniques ["active_listening"]
    cognitivePatterns := jsOrList p.cognitivePatterns []
    underlyingNeeds := jsOrList p.underlyingNeeds ["understanding"]
    therapeuticFocus := jsOrStr p.therapeuticFocus "emotional_processing"
    safetyCheck := jsOrBool p.safetyCheck false }

/-- analyzeMessageWithMemory (chat.ts lines 727-831).  The prompt built
from the message and the memory only feeds the generative capability, so
the outcome of that call is the input here.  The whole body sits in a
try-catch whose catch returns the fully defaulted analysis and leaves the
memory untouched, so the operation never throws to its caller. -/
def analyzeMessageWithMemory (message : String) (memory : SessionMemory)
    (gen : GenAnalysisOutcome) : MessageAnalysis × SessionMemory :=
  match gen with
  | .throws => (fallbackAnalysis, memory)
  | g =>
    let p := parsedOf g
    (analysisResultOf p, analyzeUpdateMemory p memory)

/-- The naturalness rewrites applied to the generated reply
(chat.ts lines 915-920). -/
def postProcessNatural (s : String) : String :=
  let s1 := jsReplace ["I understand that you are feeling"] "That sounds" false s
  let s2 := jsReplace ["It is important to"] "It might help to" false s1
  let s3 := jsReplace ["You should"] "You could consider" false s2
  let s4 := jsReplace ["As your therapist, I"] "I" false s3
  jsReplace ["I recommend"] "One approach that might be helpful" false s4

/-- The fixed line returned when the generated reply is empty
(chat.ts lines 911-912). -/
def emptyReplyFallback : String :=
  "Thank you for sharing that. I\x27m here with you. What\x27s coming up for you as you reflect on this?"

/-- The fixed line returned by the catch branch of
generateTherapeuticResponse (chat.ts line 925). -/
def respondCatchLine : String :=
  "I\x27m listening carefully. That sounds significant. Could you tell me more about what this experience has been like for you?"

/-- generateTherapeuticResponse (chat.ts lines 834-927).  The message,
analysis and memory shape only the generation prompt; the outcome of the
generative call determines the returned text: the catch line if the call
throws, otherwise the trimmed content, replaced by the fixed fallback when
empty, with the naturalness rewrites applied. -/
def generateTherapeuticResponse (message : String) (analysis : MessageAnalysis)
    (memory : SessionMemory) (gen : GenTextOutcome) : String :=
  match gen with
  | .throws => respondCatchLine
  | .returns content =>
    let trimmed := jsTrimS content
    let base := if trimmed = "" then emptyReplyFallback else trimmed
    postProcessNatural base

/-- The StoredAnalysis blob written into message metadata by the
memory-variant sendMessage (chat.ts lines 1006-1023): the full analysis
record serialized under its field names. -/
def storedOfAnalysis (a : MessageAnalysis) : StoredAnalysis :=
  { emotionalState := some a.emotionalState
    intensity := some a.intensity
    primaryThemes := some a.primaryThemes
    riskLevel := some a.riskLevel
    recommendedApproach := some a.recommendedApproach
    specificTechniques := some a.specificTechniques
    cognitivePatterns := some a.cognitivePatterns
    underlyingNeeds := some a.underlyingNeeds
    therapeuticFocus := some a.therapeuticFocus
    safetyCheck := some a.safetyCheck }

/-- The trust and progress bump performed after a processed turn
(chat.ts lines 1032-1034): both capped at one hundred. -/
def turnMemoryUpdate (mem : SessionMemory) : SessionMemory :=
  { mem with context :=
      { mem.context with
        trustLevel := min 100 (mem.context.trustLevel + 3)
        sessionProgress := min 100 (mem.context.sessionProgress + 2) } }

/-- Result discriminator of the memory-variant sendMessage. -/
inductive SendResultM where
  | unauthorized
  | badRequest
  | notFoundSession
  | forbidden
  | ok (response : String)
deriving DecidableEq, Repr

/-- Observable outcome of the memory-variant sendMessage: the HTTP-level
result, the stored session state, the session memory after the turn, and
the memory cache after the turn. -/
structure SendOutcomeM where
  result : SendResultM
  session : Option ChatSessionRec
  memory : Option SessionMemory
  cache : List (String × SessionMemory)
deriving DecidableEq, Repr

/-- The memory-variant sendMessage (chat.ts lines 971-1065): authenticate,
validate the message, load the session, check ownership, hydrate memory,
analyze, generate the reply, append the user and assistant messages, then
bump trust and progress.  The two generative calls are inputs; the
response payload echoes the reply text. -/
def sendMessage (reqUser : Option String) (message : String) (sid : String)
    (db : Option ChatSessionRec) (cache : List (String × SessionMemory))
    (genA : GenAnalysisOutcome) (genR : GenTextOutcome) (now : Nat) : SendOutcomeM :=
  match reqUser with
  | none => { result := .unauthorized, session := db, memory := none, cache := cache }
  | some uid =>
    if message = "" then
      { result := .badRequest, session := db, memory := none, cache := cache }
    else
      match db with
      | none => { result := .notFoundSession, session := none, memory := none, cache := cache }
      | some s =>
        if s.userId ≠ uid then
          { result := .forbidden, session := some s, memory := none, cache := cache }
        else
          let (memory0, cache1) := getSessionMemory cache sid (some s)
          let (analysis, memory1) := analyzeMessageWithMemory message memory0 genA
          let therapistResponse := generateTherapeuticResponse message analysis memory1 genR
          let userMessage : ChatMessage :=
            { role := .user, content := message, timestamp := now,
              metadata := some { analysis := some (storedOfAnalysis analysis) } }
          let assistantMessage : ChatMessage :=
            { role := .assistant, content := therapistResponse, timestamp := now,
              metadata := some
                { analysis := some (storedOfAnalysis analysis)
                  technique := analysis.specificTechniques.head?
                  focus := some analysis.therapeuticFocus
                  riskLevel := some analysis.riskLevel } }
          let s2 := { s with messages := s.messages ++ [userMessage, assistantMessage] }
          let memory2 := turnMemoryUpdate memory1
          { result := .ok therapistResponse
            session := some s2
            memory := some memory2
            cache := setCache cache1 sid memory2 }

/-- Preference payload accepted by updateUserPreferences. -/
structure PrefsInput where
  name : Option String := none
  communicationStyle : Option String := none
  preferredTopics : Option (List String) := none
  avoidedTopics : Option (List String) := none
  therapeuticGoals : Option (List String) := none
deriving DecidableEq, Repr

/-- The memory mutation of updateUserPreferences (chat.ts lines 1215-1222):
truthy fields overwrite the stored preferences and trust rises by ten,
capped at one hundred. -/
def updateUserPreferencesMemory (mem : SessionMemory) (p : PrefsInput) : SessionMemory :=
  let m1 :=
    match p.name with
    | some n =>
      if n = "" then mem
      else { mem with userPreferences := { mem.userPreferences with name := some n } }
    | none => mem
  let m2 :=
    match p.communicationStyle with
    | some cstyle =>
      if cstyle = "" then m1
      else { m1 with userPreferences := { m1.userPreferences with communicationStyle := some cstyle } }
    | none => m1
  let m3 :=
    match p.preferredTopics with
    | some l => { m2 with userPreferences := { m2.userPreferences with preferredTopics := some l } }
    | none => m2
  let m4 :=
    match p.avoidedTopics with
    | some l => { m3 with userPreferences := { m3.userPreferences with avoidedTopics := some l } }
    | none => m3
  let m5 :=
    match p.therapeuticGoals with
    | some l => { m4 with userPreferences := { m4.userPreferences with therapeuticGoals := some l } }
    | none => m4
  { m5 with context := { m5.context with trustLevel := min 100 (m5.context.trustLevel + 10) } }

/-- updateUserPreferences handler (chat.ts lines 1204-1233): authentication
check, memory hydration, then the preference and trust mutation. -/
def updateUserPreferences (reqUser : Option String) (sid : String)
    (db : Option ChatSessionRec) (cache : List (String × SessionMemory))
    (p : PrefsInput) : Option SessionMemory × List (String × SessionMemory) :=
  match reqUser with
  | none => (none, cache)
  | some _ =>
    let (memory0, cache1) := getSessionMemory cache sid db
    let memory1 := updateUserPreferencesMemory memory0 p
    (some memory1, setCache cache1 sid memory1)

end ChatMemory

/- The earlier controller iteration preserved as src/unnamed/part_002:
a simpler SessionMemory (conversation history plus four derived lists)
with its own getSessionMemory and sendMessage. -/
namespace Part002

/-- One remembered conversation entry (part_002 lines 22-25). -/
structure MemoryEntry where
  role : String
  content : String
deriving DecidableEq, Repr

/-- SessionMemory of part_002 (lines 27-33). -/
structure SessionMemory where
  history : List MemoryEntry
  techniques : List String
  emotions : List String
  topics : List String
  patterns : List String
deriving DecidableEq, Repr

/-- The typed analysis payload of part_002 (lines 35-42). -/
structure AnalysisData where
  emotion : String
  intensity : ℚ
  mainThoughts : List String
  cognitivePatterns : List String
  recommendedTechniques : List String
  therapeuticFocus : String
deriving DecidableEq, Repr

/-- Fold step of the part_002 getSessionMemory over one persisted message
(lines 71-88): map roles onto client and leo history entries and fold the
metadata analysis into the four lists. -/
def rebuildStep (msg : ChatMessage) (mem : SessionMemory) : SessionMemory :=
  let m1 :=
    match msg.role with
    | .user => { mem with history := mem.history ++ [⟨"client", msg.content⟩] }
    | .assistant => { mem with history := mem.history ++ [⟨"leo", msg.content⟩] }
  match msg.metadata.bind (·.analysis) with
  | none => m1
  | some a =>
    let m2 :=
      match a.emotion with
      | some e => if e = "" then m1 else { m1 with emotions := m1.emotions ++ [e] }
      | none => m1
    let m3 :=
      match a.mainThoughts with
      | some ts => { m2 with topics := m2.topics ++ ts.take 2 }
      | none => m2
    let m4 :=
      match a.cognitivePatterns with
      | some ps => { m3 with patterns := m3.patterns ++ ps }
      | none => m3
    match a.recommendedTechniques with
    | some ts =>
      match ts.head? with
      | some t => if t = "" then m4 else { m4 with techniques := m4.techniques ++ [t] }
      | none => m4
    | none => m4

/-- Cold reconstruction of the part_002 SessionMemory (lines 53-94). -/
def rebuildSessionMemory (db : Option ChatSessionRec) : SessionMemory :=
  let empty : SessionMemory := ⟨[], [], [], [], []⟩
  match db with
  | some s =>
    if s.messages.isEmpty then empty
    else s.messages.foldl (fun m msg => rebuildStep msg m) empty
  | none => empty

/-- Cache lookup for the part_002 sessionMemories Map. -/
def lookupCache (cache : List (String × SessionMemory)) (sid : String) :
    Option SessionMemory :=
  match cache with
  | [] => none
  | (k, v) :: rest => if k = sid then some v else lookupCache rest sid

/-- getSessionMemory of part_002 (lines 53-94): cached value on a hit,
otherwise rebuilt from the database and stored. -/
def getSessionMemory (cache : List (String × SessionMemory)) (sid : String)
    (db : Option ChatSessionRec) : SessionMemory × List (String × SessionMemory) :=
  match lookupCache cache sid with
  | some m => (m, cache)
  | none =>
    let m := rebuildSessionMemory db
    (m, (sid, m) :: cache)

/-- The analysis-driven memory update of the part_002 sendMessage (lines
199-217): the four pushes with their truthiness guards, then the client
and empty leo history entries.  The four derived lists have no cap. -/
def updateMemoryFromAnalysis (mem : SessionMemory) (message : String)
    (a : AnalysisData) : SessionMemory :=
  let m1 := if a.emotion = "" then mem else { mem with emotions := mem.emotions ++ [a.emotion] }
  let m2 :=
    if a.mainThoughts.isEmpty then m1
    else { m1 with topics := m1.topics ++ a.mainThoughts.take 2 }
  let m3 :=
    if a.cognitivePatterns.isEmpty then m2
    else { m2 with patterns := m2.patterns ++ a.cognitivePatterns }
  let m4 :=
    match a.recommendedTechniques.head? with
    | some t => if t = "" then m3 else { m3 with techniques := m3.techniques ++ [t] }
    | none => m3
  { m4 with history :=
      m4.history ++ [MemoryEntry.mk "client" message, MemoryEntry.mk "leo" ""] }

/-- The completion of the leo entry after the generation call (lines
259-264): when the history ends in a leo entry, replace it with one
holding the reply. -/
def fillLeo (mem : SessionMemory) (leoResponse : String) : SessionMemory :=
  if mem.history.isEmpty then mem
  else
    match mem.history.getLast? with
    | some lastEntry =>
      if lastEntry.role = "leo" then
        { mem with history := mem.history.dropLast ++ [MemoryEntry.mk "leo" leoResponse] }
      else mem
    | none => mem

/-- The history cap of the part_002 sendMessage (lines 266-269): keep the
twenty most recent entries, dropping the oldest. -/
def truncHistory (m : SessionMemory) : SessionMemory :=
  if m.history.length > 20 then
    { m with history := m.history.drop (m.history.length - 20) }
  else m

/-- The turn completion: fill the leo entry, then cap the history. -/
def applyLeoResponse (mem : SessionMemory) (leoResponse : String) : SessionMemory :=
  truncHistory (fillLeo mem leoResponse)

/-- The whole memory effect of one part_002 turn. -/
def turnMemoryUpdate (mem : SessionMemory) (message : String) (a : AnalysisData)
    (leoResponse : String) : SessionMemory :=
  applyLeoResponse (updateMemoryFromAnalysis mem message a) leoResponse

end Part002

/-- Therapeutic assessment decoded from the generated JSON
(chat.ts lines 1262-1277). -/
structure CBTEmotionalResponse where
  primaryEmotion : String
  intensity : ℚ
deriving DecidableEq, Repr

/-- CBTAssessment (chat.ts lines 1262-1277). -/
structure CBTAssessment where
  automaticThoughts : List String
  cognitiveDistortions : List String
  emotionalResponse : CBTEmotionalResponse
  recommendedCbtTechniques : List String
  homeworkSuggestion : String
  clinicalNote : Option String := none
  progressIndicators : Option (List String) := none
  safetyRiskLevel : Option ℚ := none
  safetyNeedsAttention : Option Bool := none
deriving DecidableEq, Repr

/- CBT intervention and homework dictionaries
(chat.ts lines 1288-1362). -/
namespace TherapeuticTechniques

/-- getThoughtChallengingApproach (chat.ts line 1302). -/
def getThoughtChallengingApproach (emotion : String) (intensity : ℚ) : String :=
  if emotion = "anxious" then
    "Let\x27s gently examine that anxious thought. What\x27s the actual evidence for it? What\x27s the evidence against it? What would you tell a friend who had this thought?"
  else if emotion = "depressed" then
    "That thought seems really heavy. Let\x27s look at it from different angles. Is there any evidence that contradicts this perspective?"
  else if emotion = "angry" then
    "That thought seems to carry a lot of energy. Let\x27s explore what values or boundaries might be underneath it."
  else
    "Let\x27s examine that thought together. What makes it feel true? What might challenge it?"

/-- getBehavioralActivationPlan (chat.ts line 1311). -/
def getBehavioralActivationPlan (intensity : ℚ) : String :=
  if intensity ≥ 8 then
    "Even a tiny step can help. What\x27s one small thing you could do in the next hour that might bring a moment of relief?"
  else if intensity ≥ 5 then
    "Sometimes action creates motivation. What\x27s one meaningful activity you could try today, even if you don\x27t feel like it?"
  else
    "What activities usually bring you satisfaction? How could we build more of those into your days?"

/-- getCognitiveRestructuringMethod (chat.ts line 1317). -/
def getCognitiveRestructuringMethod (emotion : String) : String :=
  "I wonder if there might be alternative ways to view this situation. What would a compassionate observer notice?"

/-- getMindfulnessPractice (chat.ts line 1321). -/
def getMindfulnessPractice (emotion : String) (intensity : ℚ) : String :=
  "Let\x27s practice just noticing these " ++ emotion ++
    " feelings without fighting them. They\x27re visitors, not permanent residents."

/-- getExposureGuidance (chat.ts line 1325). -/
def getExposureGuidance (intensity : ℚ) : String :=
  "What\x27s one small step you could take toward facing this? We can start with whatever feels barely manageable."

/-- getProblemSolvingFramework (chat.ts line 1329). -/
def getProblemSolvingFramework : String :=
  "Let\x27s break this down together. What parts feel most overwhelming? What\x27s one piece we could address right now?"

/-- getEmotionalRegulationSkills (chat.ts line 1333). -/
def getEmotionalRegulationSkills (emotion : String) : String :=
  "When " ++ emotion ++
    " feelings get intense, sometimes naming them and breathing through them can create space."

/-- getDefaultTherapeuticApproach (chat.ts line 1337). -/
def getDefaultTherapeuticApproach : String :=
  "Let\x27s work with this together in a way that feels helpful right now."

/-- getCBTIntervention (chat.ts lines 1289-1300): dictionary lookup on the
technique name, default approach for unknown keys. -/
def getCBTIntervention (technique emotion : String) (intensity : ℚ) : String :=
  if technique = "thought_challenging" then getThoughtChallengingApproach emotion intensity
  else if technique = "behavioral_activation" then getBehavioralActivationPlan intensity
  else if technique = "cognitive_restructuring" then getCognitiveRestructuringMethod emotion
  else if technique = "mindfulness" then getMindfulnessPractice emotion intensity
  else if technique = "exposure" then getExposureGuidance intensity
  else if technique = "problem_solving" then getProblemSolvingFramework
  else if technique = "emotional_regulation" then getEmotionalRegulationSkills emotion
  else getDefaultTherapeuticApproach

/-- generateTherapeuticHomework (chat.ts lines 1341-1351). -/
def generateTherapeuticHomework (technique emotion : String) : String :=
  if technique = "thought_challenging" then
    "Practice noticing automatic thoughts and gently questioning them. Write down one thought and look for evidence for and against it."
  else if technique = "behavioral_activation" then
    "Schedule one small, meaningful activity each day. Notice how your mood shifts, even slightly, after doing it."
  else if technique = "cognitive_restructuring" then
    "Keep a thought record - when negative thoughts come up, practice generating alternative perspectives."
  else if technique = "mindfulness" then
    "Practice 5-10 minutes of mindful awareness daily. Just notice thoughts and feelings without judgment."
  else if technique = "exposure" then
    "Create a fear hierarchy and practice the easiest item this week."
  else if technique = "emotional_regulation" then
    "Practice naming emotions as they arise and using breathing to create space."
  else
    "Practice noticing the connection between thoughts, feelings, and behaviors this week."

end TherapeuticTechniques

/- Progress tracking system (chat.ts lines 1366-1408). -/
namespace ProgressTracker

/-- One per-session accumulator entry (chat.ts lines 1371-1378); the
homeworkCompletion array is written nowhere and read nowhere, so it is
not carried. -/
structure ProgressEntry where
  sessionCount : Nat
  emotionalIntensityTrend : List ℚ
  techniquesUsed : List String
  insightMoments : Nat
  lastAssessment : Option CBTAssessment
deriving DecidableEq, Repr

/-- The freshly initialized accumulator (chat.ts lines 1371-1378). -/
def emptyEntry : ProgressEntry :=
  { sessionCount := 0
    emotionalIntensityTrend := []
    techniquesUsed := []
    insightMoments := 0
    lastAssessment := none }

/-- updateProgress (chat.ts lines 1369-1391): lazily create the entry,
count the turn, push the intensity and the techniques, and count an
insight moment for a long reply at sub-seven intensity. -/
def updateProgress (t : Option ProgressEntry) (assessment : CBTAssessment)
    (responseLength : Nat) : ProgressEntry :=
  let p := t.getD emptyEntry
  { sessionCount := p.sessionCount + 1
    emotionalIntensityTrend :=
      p.emotionalIntensityTrend ++ [assessment.emotionalResponse.intensity]
    techniquesUsed := p.techniquesUsed ++ assessment.recommendedCbtTechniques
    insightMoments :=
      p.insightMoments +
        (if 150 < responseLength ∧ assessment.emotionalResponse.intensity < 7 then 1 else 0)
    lastAssessment := some assessment }

/-- The summary record (chat.ts lines 1400-1406). -/
structure ProgressSummary where
  sessionsCompleted : Nat
  averageEmotionalIntensity : ℚ
  techniquesExperienced : Nat
  insightMoments : Nat
  trend : String
deriving DecidableEq, Repr

/-- JavaScript Math.round: nearest integer, halves toward positive
infinity. -/
def jsRound (q : ℚ) : ℤ := ⌊q + 1 / 2⌋

/-- The trend comparison of getProgressSummary (chat.ts line 1405): the
most recent recorded intensity against the first; indexing an empty array
gives undefined on both sides, whose comparison is false, hence stable. -/
def trendLabel (l : List ℚ) : String :=
  match l.getLast?, l.head? with
  | some lastI, some firstI => if lastI < firstI then "improving" else "stable"
  | _, _ => "stable"

/-- getProgressSummary (chat.ts lines 1393-1408): null without an
accumulator; otherwise the mean intensity rounded to one decimal place,
the number of distinct techniques, and a trend label comparing the most
recent intensity against the first. -/
def getProgressSummary (t : Option ProgressEntry) : Option ProgressSummary :=
  match t with
  | none => none
  | some p =>
    let avgIntensity : ℚ :=
      p.emotionalIntensityTrend.sum / (p.emotionalIntensityTrend.length : ℚ)
    some
      { sessionsCompleted := p.sessionCount
        averageEmotionalIntensity := (jsRound (avgIntensity * 10) : ℚ) / 10
        techniquesExperienced := p.techniquesUsed.dedup.length
        insightMoments := p.insightMoments
        trend := trendLabel p.emotionalIntensityTrend }

end ProgressTracker

/- The final controller region of src/src/controllers/chat.ts
(lines 1233-1915): the therapeutic sendMessage with TextCleaner and
ProgressTracker, and the read handlers. -/
namespace ChatFinal

open JsStr

/-- The fully defaulted assessment substituted when the generated
assessment text cannot be decoded (chat.ts lines 1653-1668). -/
def fallbackAssessment : CBTAssessment :=
  { automaticThoughts := ["Assessment processing"]
    cognitiveDistortions := []
    emotionalResponse := { primaryEmotion := "neutral", intensity := 5 }
    recommendedCbtTechniques := ["thought_challenging", "mindfulness"]
    homeworkSuggestion := "Practice observing thoughts and feelings"
    clinicalNote := some "Continuing therapeutic support"
    progressIndicators := some ["engagement"]
    safetyRiskLevel := some 1
    safetyNeedsAttention := some false }

/-- Behaviour of the assessment generation step: the call throws, the
returned text fails to decode after cleaning (chat.ts lines 1644-1669), or
it decodes to a well-shaped assessment.  A decodable object missing
required fields would make the later field accesses throw into the outer
catch; that path is subsumed by the throwing behaviour. -/
inductive GenAssessOutcome where
  | throws
  | unparsable
  | parsed (a : CBTAssessment)
deriving DecidableEq, Repr

/-- The StoredAnalysis blob written by the final sendMessage
(metadata.analysis holds the whole CBT assessment). -/
def storedOfCBT (a : CBTAssessment) : StoredAnalysis :=
  { automaticThoughts := some a.automaticThoughts
    cognitiveDistortions := some a.cognitiveDistortions
    primaryEmotion := some a.emotionalResponse.primaryEmotion
    emotionalIntensity := some a.emotionalResponse.intensity
    recommendedCbtTechniques := some a.recommendedCbtTechniques }

/-- Result discriminator of the final sendMessage. -/
inductive SendResult where
  | unauthorized
  | notFoundSession
  | forbidden
  | serverError
  | ok (response : String)
deriving DecidableEq, Repr

/-- Whether a result is the success case. -/
def SendResult.isOk : SendResult → Bool
  | .ok _ => true
  | _ => false

/-- Observable outcome of the final sendMessage: the HTTP-level result,
the stored session state, the progress accumulator, and whether each
generative step was invoked. -/
structure SendOutcome where
  result : SendResult
  session : Option ChatSessionRec
  tracker : Option ProgressTracker.ProgressEntry
  assessCalled : Bool
  replyCalled : Bool
deriving DecidableEq, Repr

/-- The or-default on the first recommended technique
(chat.ts line 1674). -/
def headTechnique (l : List String) : String :=
  match l.head? with
  | some h => if h = "" then "thought_challenging" else h
  | none => "thought_challenging"

/-- The fixed line used when the generated reply is empty
(chat.ts lines 1733-1734). -/
def emptyReplyFallback : String :=
  "I hear what you\x27re sharing. Let\x27s work with this together in a way that feels helpful."

/-- The final sendMessage (chat.ts lines 1567-1822): authenticate, load
the session, check ownership, run the assessment step, run the reply step,
clean the reply, update the progress accumulator, and append the user and
assistant message pair.  The prompt texts, identifyThemes and the progress
summary only shape the prompts fed to the generative capability, whose
behaviour is an input here; a throw at either generative step falls into
the outer catch, which reports a server error without saving anything.
There is no conversation-close detection anywhere on this path and the
session status is never written. -/
def sendMessage (reqUser : Option String) (db : Option ChatSessionRec)
    (message : String) (tracker : Option ProgressTracker.ProgressEntry)
    (ga : GenAssessOutcome) (gr : GenTextOutcome) (now : Nat) : SendOutcome :=
  match reqUser with
  | none =>
    { result := .unauthorized, session := db, tracker := tracker,
      assessCalled := false, replyCalled := false }
  | some uid =>
    match db with
    | none =>
      { result := .notFoundSession, session := none, tracker := tracker,
        assessCalled := false, replyCalled := false }
    | some s =>
      if s.userId ≠ uid then
        { result := .forbidden, session := some s, tracker := tracker,
          assessCalled := false, replyCalled := false }
      else
        match ga with
        | .throws =>
          { result := .serverError, session := some s, tracker := tracker,
            assessCalled := true, replyCalled := false }
        | gav =>
          let therapeuticAssessment :=
            match gav with
            | .parsed a => a
            | _ => fallbackAssessment
          let primaryTechnique := headTechnique therapeuticAssessment.recommendedCbtTechniques
          let therapeuticIntervention :=
            TherapeuticTechniques.getCBTIntervention primaryTechnique
              therapeuticAssessment.emotionalResponse.primaryEmotion
              therapeuticAssessment.emotionalResponse.intensity
          let homeworkSuggestion :=
            TherapeuticTechniques.generateTherapeuticHomework primaryTechnique
              therapeuticAssessment.emotionalResponse.primaryEmotion
          match gr with
          | .throws =>
            { result := .serverError, session := some s, tracker := tracker,
              assessCalled := true, replyCalled := true }
          | .returns content =>
            let trimmed := jsTrimS content
            let raw := if trimmed = "" then emptyReplyFallback else trimmed
            let therapeuticResponse := TextCleaner.cleanTherapeuticContent raw
            let tracker2 :=
              some (ProgressTracker.updateProgress tracker therapeuticAssessment
                therapeuticResponse.length)
            let userMessage : ChatMessage :=
              { role := .user, content := message, timestamp := now,
                metadata := some
                  { analysis := some (storedOfCBT therapeuticAssessment)
                    progressEmotionalState :=
                      some therapeuticAssessment.emotionalResponse.primaryEmotion
                    progressRiskLevel :=
                      some therapeuticAssessment.emotionalResponse.intensity } }
            let assistantMessage : ChatMessage :=
              { role := .assistant, content := therapeuticResponse, timestamp := now,
                metadata := some
                  { analysis := some (storedOfCBT therapeuticAssessment)
                    progressEmotionalState :=
                      some therapeuticAssessment.emotionalResponse.primaryEmotion
                    progressRiskLevel :=
                      some therapeuticAssessment.emotionalResponse.intensity
                    therapeuticTechnique := some primaryTechnique
                    therapeuticIntervention := some therapeuticIntervention
                    therapeuticHomework := some homeworkSuggestion
                    therapeuticDistortions :=
                      some therapeuticAssessment.cognitiveDistortions
                    therapeuticProgressIndicators :=
                      therapeuticAssessment.progressIndicators } }
            { result := .ok therapeuticResponse
              session := some
                { s with messages := s.messages ++ [userMessage, assistantMessage] }
              tracker := tracker2
              assessCalled := true
              replyCalled := true }

/-- Result of the getChatHistory handler. -/
inductive HistoryResult where
  | unauthorized
  | notFoundSession
  | forbidden
  | okMessages (messages : List ChatMessage)
deriving DecidableEq, Repr

/-- getChatHistory (chat.ts lines 1870-1891): authenticate, load, check
ownership, and return the stored message list unchanged. -/
def getChatHistory (reqUser : Option String) (db : Option ChatSessionRec) :
    HistoryResult :=
  match reqUser with
  | none => .unauthorized
  | some uid =>
    match db with
    | none => .notFoundSession
    | some s => if s.userId ≠ uid then .forbidden else .okMessages s.messages

/-- Result of the getChatSession handler. -/
inductive GetSessionResult where
  | notFoundSession
  | okSession (s : ChatSessionRec)
deriving DecidableEq, Repr

/-- getChatSession (chat.ts lines 1856-1868): the handler reads only the
session id from the request; the authenticated caller, received with the
request, is never consulted, and the full session document is returned to
whoever asks. -/
def getChatSession (reqUser : Option String) (db : Option ChatSessionRec) :
    GetSessionResult :=
  match db with
  | none => .notFoundSession
  | some s => .okSession s

end ChatFinal

/-- Messages stored under an optional session. -/
def msgsOf : Option ChatSessionRec → List ChatMessage
  | some s => s.messages
  | none => []

/-- Status stored under an optional session. -/
def statusOf (o : Option ChatSessionRec) : Option SessionStatus :=
  o.map (·.status)

/-- Arithmetic mean of a rational list (the specification-side reading of
mean intensity). -/
def meanQ (l : List ℚ) : ℚ := l.sum / (l.length : ℚ)

/-- First two entries of an optional list, nothing when absent (the shape
of one list push of the analysis update). -/
def takeTwoOpt (o : Option (List String)) : List String :=
  match o with
  | some ts => ts.take 2
  | none => []

/-- The first technique when truthy, as a list (the shape of the part_002
technique push). -/
def headTechTail (l : List String) : List String :=
  match l.head? with
  | some t => if t = "" then [] else [t]
  | none => []

/-- The progress accumulator produced by a sequence of recorded turns,
each an assessment with the reply length passed to updateProgress. -/
def trackerOf (turns : List (CBTAssessment × Nat)) :
    Option ProgressTracker.ProgressEntry :=
  turns.foldl (fun t p => some (ProgressTracker.updateProgress t p.1 p.2)) none

/-- Session memories reachable within one process: a cold rebuild followed
by any sequence of the in-place updates the controllers perform (analysis
push, per-turn trust and progress bump, preference update). -/
inductive ReachableMemory : ChatMemory.SessionMemory → Prop where
  | rebuilt (db : Option ChatSessionRec) :
      ReachableMemory (ChatMemory.rebuildSessionMemory db)
  | analyzed (mem : ChatMemory.SessionMemory) (message : String)
      (g : ChatMemory.GenAnalysisOutcome) : ReachableMemory mem →
      ReachableMemory (ChatMemory.analyzeMessageWithMemory message mem g).2
  | turned (mem : ChatMemory.SessionMemory) : ReachableMemory mem →
      ReachableMemory (ChatMemory.turnMemoryUpdate mem)
  | prefs (mem : ChatMemory.SessionMemory) (p : ChatMemory.PrefsInput) :
      ReachableMemory mem →
      ReachableMemory (ChatMemory.updateUserPreferencesMemory mem p)

/-- A session memory holding twenty-six emotional-state entries, as arises
after twenty-six analyzed turns. -/
def longMemory : ChatMemory.SessionMemory :=
  { ChatMemory.defaultSessionMemory with emotionalPatterns := List.replicate 26 "sad" }

/-- A concrete active session owned by u1. -/
def thanksSession : ChatSessionRec :=
  { sessionId := "s1", userId := "u1", startTime := 0, status := .active, messages := [] }

/-- A concrete assessment with the given intensity. -/
def cexAssess (q : ℚ) : CBTAssessment :=
  { automaticThoughts := []
    cognitiveDistortions := []
    emotionalResponse := { primaryEmotion := "anxious", intensity := q }
    recommendedCbtTechniques := ["mindfulness"]
    homeworkSuggestion := "hw" }

/-- Three recorded turns with intensities one, two and two. -/
def cexTurns : List (CBTAssessment × Nat) :=
  [(cexAssess 1, 10), (cexAssess 2, 10), (cexAssess 2, 10)]


/- Helper lemmas about the string machinery. -/

/-- A string built from a nonempty character list is nonempty. -/
theorem strMk_ne_empty {l : List Char} (h : l ≠ []) : (⟨l⟩ : String) ≠ "" := by
  intro hc
  apply h
  simpa using congrArg String.data hc

/-- The character list of a nonempty string is nonempty. -/
theorem data_ne_nil {s : String} (h : s ≠ "") : s.data ≠ [] := by
  intro hd
  apply h
  cases s with
  | mk l =>
    cases hd
    rfl

/-- replAlts with a nonempty replacement maps nonempty input to nonempty
output. -/
theorem replAlts_ne_nil (alts : List (List Char)) (rep : List Char) (ci : Bool)
    (hrep : rep ≠ []) :
    ∀ (fuel : Nat) (s : List Char), s ≠ [] → JsStr.replAlts alts rep ci fuel s ≠ [] := by
  intro fuel
  induction fuel with
  | zero => intro s hs; simpa [JsStr.replAlts] using hs
  | succ n ih =>
    intro s hs
    match s with
    | [] => exact absurd rfl hs
    | c :: cs =>
      simp only [JsStr.replAlts]
      split
      · intro hcontra
        rw [List.append_eq_nil] at hcontra
        exact hrep hcontra.1
      · simp

/-- jsReplace with a nonempty replacement maps nonempty input to nonempty
output. -/
theorem jsReplace_ne_empty (alts : List String) (rep : String) (ci : Bool)
    (s : String) (hrep : rep ≠ "") (hs : s ≠ "") :
    JsStr.jsReplace alts rep ci s ≠ "" := by
  apply strMk_ne_empty
  exact replAlts_ne_nil _ _ _ (data_ne_nil hrep) _ _ (data_ne_nil hs)

/-- The naturalness rewrites keep a nonempty reply nonempty: every
replacement text is nonempty. -/
theorem postProcessNatural_ne_empty {s : String} (hs : s ≠ "") :
    ChatMemory.postProcessNatural s ≠ "" := by
  unfold ChatMemory.postProcessNatural
  apply jsReplace_ne_empty _ _ _ _ (by decide)
  apply jsReplace_ne_empty _ _ _ _ (by decide)
  apply jsReplace_ne_empty _ _ _ _ (by decide)
  apply jsReplace_ne_empty _ _ _ _ (by decide)
  exact jsReplace_ne_empty _ _ _ _ (by decide) hs

/-- C1 counterexample: two generated replies that both contain the
denylisted pairing of prescribe with a medication name produce two
different outputs of the response synthesis step, and the output still
contains the denylisted term; hence the output does not equal any fixed
safe fallback text, and the generated text is not discarded. -/
theorem claim_C1_counterexample :
    ChatMemory.generateTherapeuticResponse "m" ChatMemory.fallbackAnalysis
        ChatMemory.defaultSessionMemory
        (.returns "I prescribe sertraline medication every day.") ≠
      ChatMemory.generateTherapeuticResponse "m" ChatMemory.fallbackAnalysis
        ChatMemory.defaultSessionMemory
        (.returns "I prescribe lithium medication every day.")
    ∧ JsStr.containsSub "prescribe"
        (ChatMemory.generateTherapeuticResponse "m" ChatMemory.fallbackAnalysis
          ChatMemory.defaultSessionMemory
          (.returns "I prescribe sertraline medication every day.")) = true := by
  constructor
  · decide
  · decide

/-- C1 amended: the response synthesis step applies only the five fixed
naturalness rewrites to generated text; it has no denylist scan, so a
generated reply that pairs prescribe with a medication name is returned
verbatim, whatever the utterance, assessment and memory are. -/
theorem claim_C1_amended :
    ∀ (message : String) (analysis : ChatMemory.MessageAnalysis)
      (memory : ChatMemory.SessionMemory),
      ChatMemory.generateTherapeuticResponse message analysis memory
          (.returns "I prescribe sertraline medication every day.") =
        "I prescribe sertraline medication every day."
      ∧ JsStr.containsSub "prescribe"
          (ChatMemory.generateTherapeuticResponse message analysis memory
            (.returns "I prescribe sertraline medication every day.")) = true := by
  intro message analysis memory
  constructor
  · show ChatMemory.postProcessNatural _ = _
    decide
  · show JsStr.containsSub _ (ChatMemory.postProcessNatural _) = true
    decide

/-- C3: the response synthesis step always returns nonempty text; when the
generative call throws it returns the fixed catch line, and when the call
returns an empty or all-whitespace reply it returns the fixed warm
fallback line. -/
theorem claim_C3_respond_always_speakable :
    ∀ (message : String) (analysis : ChatMemory.MessageAnalysis)
      (memory : ChatMemory.SessionMemory) (gen : GenTextOutcome),
      ChatMemory.generateTherapeuticResponse message analysis memory gen ≠ ""
      ∧ (gen = .throws →
          ChatMemory.generateTherapeuticResponse message analysis memory gen =
            ChatMemory.respondCatchLine)
      ∧ (∀ content, gen = .returns content → JsStr.jsTrimS content = "" →
          ChatMemory.generateTherapeuticResponse message analysis memory gen =
            ChatMemory.emptyReplyFallback) := by
  intro message analysis memory gen
  refine ⟨?_, ?_, ?_⟩
  · cases gen with
    | throws =>
      show ChatMemory.respondCatchLine ≠ ""
      decide
    | returns content =>
      show ChatMemory.postProcessNatural
          (if JsStr.jsTrimS content = "" then ChatMemory.emptyReplyFallback
           else JsStr.jsTrimS content) ≠ ""
      by_cases h : JsStr.jsTrimS content = ""
      · rw [if_pos h]; decide
      · rw [if_neg h]; exact postProcessNatural_ne_empty h
  · rintro rfl; rfl
  · rintro content rfl h
    show ChatMemory.postProcessNatural
        (if JsStr.jsTrimS content = "" then ChatMemory.emptyReplyFallback
         else JsStr.jsTrimS content) = _
    rw [if_pos h]
    decide

/-- C3 witness at a throwing generative call and at an empty reply. -/
theorem claim_C3_witness :
    ChatMemory.generateTherapeuticResponse "hi" ChatMemory.fallbackAnalysis
        ChatMemory.defaultSessionMemory .throws = ChatMemory.respondCatchLine
    ∧ ChatMemory.generateTherapeuticResponse "hi" ChatMemory.fallbackAnalysis
        ChatMemory.defaultSessionMemory (.returns "  ") = ChatMemory.emptyReplyFallback :=
  ⟨(claim_C3_respond_always_speakable "hi" ChatMemory.fallbackAnalysis
      ChatMemory.defaultSessionMemory .throws).2.1 rfl,
   (claim_C3_respond_always_speakable "hi" ChatMemory.fallbackAnalysis
      ChatMemory.defaultSessionMemory (.returns "  ")).2.2 "  " rfl (by decide)⟩

/-- C2: the structured extraction step never throws to its caller and
always returns a complete, well-typed assessment: the outer catch yields
the fully defaulted record and leaves the memory untouched, an empty or
undecodable generation yields the documented parse-failure defaults, and
a decoded object missing a field gets that field defaulted, in particular
intensity five and technique list active-listening. -/
theorem claim_C2_analyze_defaults :
    ∀ (message : String) (memory : ChatMemory.SessionMemory)
      (gen : ChatMemory.GenAnalysisOutcome),
      (gen = .throws →
        (ChatMemory.analyzeMessageWithMemory message memory gen).1 =
            ChatMemory.fallbackAnalysis
          ∧ (ChatMemory.analyzeMessageWithMemory message memory gen).2 = memory)
      ∧ (gen = .emptyOutput ∨ gen = .garbage →
          (ChatMemory.analyzeMessageWithMemory message memory gen).1 =
            ChatMemory.analysisResultOf ChatMemory.emptyParsed)
      ∧ ChatMemory.analysisResultOf ChatMemory.emptyParsed =
          { emotionalState := "reflective", intensity := 5,
            primaryThemes := ["exploring thoughts"], riskLevel := 0,
            recommendedApproach := "validation",
            specificTechniques := ["active_listening"], cognitivePatterns := [],
            underlyingNeeds := ["understanding"],
            therapeuticFocus := "emotional_processing", safetyCheck := false }
      ∧ (∀ p, gen = .parsed p →
          (p.intensity = none →
            (ChatMemory.analyzeMessageWithMemory message memory gen).1.intensity = 5)
          ∧ (p.specificTechniques = none →
            (ChatMemory.analyzeMessageWithMemory message memory gen).1.specificTechniques =
              ["active_listening"])
          ∧ (p.emotionalState = none →
            (ChatMemory.analyzeMessageWithMemory message memory gen).1.emotionalState =
              "reflective")
          ∧ (p.underlyingNeeds = none →
            (ChatMemory.analyzeMessageWithMemory message memory gen).1.underlyingNeeds =
              ["understanding"])) := by
  intro message memory gen
  refine ⟨?_, ?_, by decide, ?_⟩
  · rintro rfl; exact ⟨rfl, rfl⟩
  · rintro (rfl | rfl) <;> rfl
  · rintro p rfl
    refine ⟨?_, ?_, ?_, ?_⟩ <;> intro h <;>
      simp [ChatMemory.analyzeMessageWithMemory, ChatMemory.parsedOf,
            ChatMemory.analysisResultOf, ChatMemory.jsOrQ, ChatMemory.jsOrList,
            ChatMemory.jsOrStr, h]

/-- C2 witness: an undecodable generation yields the parse-failure
defaults, and a decoded object missing the intensity field gets intensity
five. -/
theorem claim_C2_witness :
    (ChatMemory.analyzeMessageWithMemory "hi" ChatMemory.defaultSessionMemory
        .garbage).1 = ChatMemory.analysisResultOf ChatMemory.emptyParsed
    ∧ (ChatMemory.analyzeMessageWithMemory "hi" ChatMemory.defaultSessionMemory
        (.parsed { emotionalState := some "anxious" })).1.intensity = 5 :=
  ⟨(claim_C2_analyze_defaults "hi" ChatMemory.defaultSessionMemory .garbage).2.1
      (Or.inr rfl),
   (((claim_C2_analyze_defaults "hi" ChatMemory.defaultSessionMemory
      (.parsed { emotionalState := some "anxious" })).2.2.2
      { emotionalState := some "anxious" } rfl).1 rfl)⟩

/- Helper lemmas about memory growth. -/

/-- The analysis update appends exactly one entry to the emotion list. -/
theorem aum_emotionalPatterns (p : ChatMemory.ParsedAnalysis)
    (mem : ChatMemory.SessionMemory) :
    (ChatMemory.analyzeUpdateMemory p mem).emotionalPatterns =
      mem.emotionalPatterns ++ [ChatMemory.jsOrStr p.emotionalState "neutral"] := by
  simp only [ChatMemory.analyzeUpdateMemory]
  repeat' split
  all_goals rfl

/-- The analysis update appends at most the first two themes to the topic
list. -/
theorem aum_conversationThemes (p : ChatMemory.ParsedAnalysis)
    (mem : ChatMemory.SessionMemory) :
    (ChatMemory.analyzeUpdateMemory p mem).conversationThemes =
      mem.conversationThemes ++ takeTwoOpt p.primaryThemes := by
  simp only [ChatMemory.analyzeUpdateMemory, takeTwoOpt]
  repeat' split
  all_goals simp_all

/-- The analysis update appends at most the first two techniques to the
technique list. -/
theorem aum_therapeuticTechniques (p : ChatMemory.ParsedAnalysis)
    (mem : ChatMemory.SessionMemory) :
    (ChatMemory.analyzeUpdateMemory p mem).therapeuticTechniques =
      mem.therapeuticTechniques ++ takeTwoOpt p.specificTechniques := by
  simp only [ChatMemory.analyzeUpdateMemory, takeTwoOpt]
  repeat' split
  all_goals simp_all

/-- Dropping fewer elements than the length leaves the last element. -/
theorem getLast?_drop_of_lt {α : Type} {l : List α} :
    ∀ {k : Nat}, k < l.length → (l.drop k).getLast? = l.getLast? := by
  induction l with
  | nil => intro k h; simp at h
  | cons c cs ih =>
    intro k h
    match k with
    | 0 => rfl
    | Nat.succ n =>
      have hn : n < cs.length := by simpa using h
      have hne : cs ≠ [] := by
        intro hc
        rw [hc] at hn
        simp at hn
      rw [List.drop_succ_cons, ih hn]
      match cs, hne with
      | d :: ds, _ => rw [List.getLast?_cons_cons]

/-- The part_002 analysis update appends the client and empty leo entries
to the history. -/
theorem uma_history (mem : Part002.SessionMemory) (message : String)
    (a : Part002.AnalysisData) :
    (Part002.updateMemoryFromAnalysis mem message a).history =
      mem.history ++ [Part002.MemoryEntry.mk "client" message,
                      Part002.MemoryEntry.mk "leo" ""] := by
  simp only [Part002.updateMemoryFromAnalysis]
  repeat' split
  all_goals rfl

/-- The part_002 analysis update only appends to the emotion list. -/
theorem uma_emotions (mem : Part002.SessionMemory) (message : String)
    (a : Part002.AnalysisData) :
    (Part002.updateMemoryFromAnalysis mem message a).emotions =
      mem.emotions ++ (if a.emotion = "" then [] else [a.emotion]) := by
  simp only [Part002.updateMemoryFromAnalysis]
  repeat' split
  all_goals simp_all

/-- The part_002 analysis update only appends to the topic list. -/
theorem uma_topics (mem : Part002.SessionMemory) (message : String)
    (a : Part002.AnalysisData) :
    (Part002.updateMemoryFromAnalysis mem message a).topics =
      mem.topics ++ (if a.mainThoughts.isEmpty then [] else a.mainThoughts.take 2) := by
  simp only [Part002.updateMemoryFromAnalysis]
  repeat' split
  all_goals simp_all

/-- The part_002 analysis update only appends to the pattern list. -/
theorem uma_patterns (mem : Part002.SessionMemory) (message : String)
    (a : Part002.AnalysisData) :
    (Part002.updateMemoryFromAnalysis mem message a).patterns =
      mem.patterns ++ (if a.cognitivePatterns.isEmpty then [] else a.cognitivePatterns) := by
  simp only [Part002.updateMemoryFromAnalysis]
  repeat' split
  all_goals simp_all

/-- The part_002 analysis update only appends to the technique list. -/
theorem uma_techniques (mem : Part002.SessionMemory) (message : String)
    (a : Part002.AnalysisData) :
    (Part002.updateMemoryFromAnalysis mem message a).techniques =
      mem.techniques ++ headTechTail a.recommendedTechniques := by
  simp only [Part002.updateMemoryFromAnalysis, headTechTail]
  repeat' split
  all_goals simp_all

/-- The history cap leaves at most twenty entries. -/
theorem truncHistory_length (m : Part002.SessionMemory) :
    (Part002.truncHistory m).history.length ≤ 20 := by
  unfold Part002.truncHistory
  by_cases h : m.history.length > 20
  · rw [if_pos h]
    show (m.history.drop (m.history.length - 20)).length ≤ 20
    rw [List.length_drop]
    omega
  · rw [if_neg h]
    omega

/-- The history cap keeps the newest entry. -/
theorem truncHistory_getLast (m : Part002.SessionMemory) :
    (Part002.truncHistory m).history.getLast? = m.history.getLast? := by
  unfold Part002.truncHistory
  by_cases h : m.history.length > 20
  · rw [if_pos h]
    show (m.history.drop (m.history.length - 20)).getLast? = _
    exact getLast?_drop_of_lt (by omega)
  · rw [if_neg h]

/-- The history cap never touches the four derived lists. -/
theorem truncHistory_lists (m : Part002.SessionMemory) :
    (Part002.truncHistory m).emotions = m.emotions
    ∧ (Part002.truncHistory m).topics = m.topics
    ∧ (Part002.truncHistory m).patterns = m.patterns
    ∧ (Part002.truncHistory m).techniques = m.techniques := by
  unfold Part002.truncHistory
  split
  all_goals exact ⟨rfl, rfl, rfl, rfl⟩

/-- Filling the leo entry when the history ends in one replaces exactly
that entry. -/
theorem fillLeo_history (mem : Part002.SessionMemory) (leo : String)
    (e : Part002.MemoryEntry) (hlast : mem.history.getLast? = some e)
    (hrole : e.role = "leo") :
    (Part002.fillLeo mem leo).history =
      mem.history.dropLast ++ [Part002.MemoryEntry.mk "leo" leo] := by
  have hne : mem.history ≠ [] := by
    intro hc
    rw [hc] at hlast
    simp at hlast
  unfold Part002.fillLeo
  rw [if_neg (by simpa [List.isEmpty_iff] using hne), hlast]
  simp [hrole]

/-- Filling the leo entry never touches the four derived lists. -/
theorem fillLeo_lists (mem : Part002.SessionMemory) (leo : String) :
    (Part002.fillLeo mem leo).emotions = mem.emotions
    ∧ (Part002.fillLeo mem leo).topics = mem.topics
    ∧ (Part002.fillLeo mem leo).patterns = mem.patterns
    ∧ (Part002.fillLeo mem leo).techniques = mem.techniques := by
  unfold Part002.fillLeo
  repeat' split
  all_goals exact ⟨rfl, rfl, rfl, rfl⟩

/-- Completing the leo entry never touches the emotion list. -/
theorem alr_emotions (mem : Part002.SessionMemory) (leo : String) :
    (Part002.applyLeoResponse mem leo).emotions = mem.emotions := by
  have h1 := truncHistory_lists (Part002.fillLeo mem leo)
  have h2 := fillLeo_lists mem leo
  unfold Part002.applyLeoResponse
  rw [h1.1, h2.1]

/-- Completing the leo entry never touches the topic list. -/
theorem alr_topics (mem : Part002.SessionMemory) (leo : String) :
    (Part002.applyLeoResponse mem leo).topics = mem.topics := by
  have h1 := truncHistory_lists (Part002.fillLeo mem leo)
  have h2 := fillLeo_lists mem leo
  unfold Part002.applyLeoResponse
  rw [h1.2.1, h2.2.1]

/-- Completing the leo entry never touches the pattern list. -/
theorem alr_patterns (mem : Part002.SessionMemory) (leo : String) :
    (Part002.applyLeoResponse mem leo).patterns = mem.patterns := by
  have h1 := truncHistory_lists (Part002.fillLeo mem leo)
  have h2 := fillLeo_lists mem leo
  unfold Part002.applyLeoResponse
  rw [h1.2.2.1, h2.2.2.1]

/-- Completing the leo entry never touches the technique list. -/
theorem alr_techniques (mem : Part002.SessionMemory) (leo : String) :
    (Part002.applyLeoResponse mem leo).techniques = mem.techniques := by
  have h1 := truncHistory_lists (Part002.fillLeo mem leo)
  have h2 := fillLeo_lists mem leo
  unfold Part002.applyLeoResponse
  rw [h1.2.2.2, h2.2.2.2]

/-- After the part_002 turn completion the history holds at most twenty
entries. -/
theorem alr_history_length (mem : Part002.SessionMemory) (leo : String) :
    (Part002.applyLeoResponse mem leo).history.length ≤ 20 :=
  truncHistory_length _

/-- When the history ends in a leo entry the turn completion keeps the
newest entry, now holding the reply. -/
theorem alr_getLast (mem : Part002.SessionMemory) (leo : String) (e : Part002.MemoryEntry)
    (hlast : mem.history.getLast? = some e) (hrole : e.role = "leo") :
    (Part002.applyLeoResponse mem leo).history.getLast? =
      some (Part002.MemoryEntry.mk "leo" leo) := by
  unfold Part002.applyLeoResponse
  rw [truncHistory_getLast, fillLeo_history mem leo e hlast hrole]
  exact List.getLast?_concat _

/-- C7 counterexample: after the memory update of one analyzed turn a
session memory that already holds twenty-six emotional-state entries holds
twenty-seven, exceeding every cap of roughly ten to twenty-five entries;
no truncation happens. -/
theorem claim_C7_counterexample :
    (ChatMemory.analyzeMessageWithMemory "hi" longMemory .garbage).2.emotionalPatterns.length = 27
    ∧ ¬ ((ChatMemory.analyzeMessageWithMemory "hi" longMemory
          .garbage).2.emotionalPatterns.length ≤ 25) := by
  constructor
  · decide
  · decide

/-- C7 amended: the memory update of a turn only appends to the tracked
lists.  In the enhanced-memory controller each turn appends at most one
emotion, two topics and two techniques and never drops anything; in the
part_002 controller the four derived lists likewise only grow, and only
the conversation-history list is capped, at its twenty most recent
entries, dropping the oldest while the newest entry always survives. -/
theorem claim_C7_amended :
    (∀ (message : String) (memory : ChatMemory.SessionMemory)
       (gen : ChatMemory.GenAnalysisOutcome),
      ∃ t1 t2 t3,
        (ChatMemory.analyzeMessageWithMemory message memory gen).2.emotionalPatterns =
          memory.emotionalPatterns ++ t1
        ∧ (ChatMemory.analyzeMessageWithMemory message memory gen).2.conversationThemes =
            memory.conversationThemes ++ t2
        ∧ (ChatMemory.analyzeMessageWithMemory message memory gen).2.therapeuticTechniques =
            memory.therapeuticTechniques ++ t3
        ∧ t1.length ≤ 1 ∧ t2.length ≤ 2 ∧ t3.length ≤ 2)
    ∧ (∀ (mem : Part002.SessionMemory) (message : String) (a : Part002.AnalysisData)
        (leo : String),
        (Part002.turnMemoryUpdate mem message a leo).history.length ≤ 20
        ∧ (Part002.turnMemoryUpdate mem message a leo).history.getLast? =
            some (Part002.MemoryEntry.mk "leo" leo)
        ∧ ∃ t4 t5 t6 t7,
            (Part002.turnMemoryUpdate mem message a leo).emotions = mem.emotions ++ t4
            ∧ (Part002.turnMemoryUpdate mem message a leo).topics = mem.topics ++ t5
            ∧ (Part002.turnMemoryUpdate mem message a leo).patterns = mem.patterns ++ t6
            ∧ (Part002.turnMemoryUpdate mem message a leo).techniques =
                mem.techniques ++ t7) := by
  constructor
  · intro message memory gen
    have lenTake : ∀ (o : Option (List String)), (takeTwoOpt o).length ≤ 2 := by
      intro o
      rcases o with _ | ts
      · simp [takeTwoOpt]
      · simp only [takeTwoOpt, List.length_take]
        omega
    cases gen with
    | throws =>
      refine ⟨[], [], [], ?_, ?_, ?_, ?_, ?_, ?_⟩ <;>
        simp [ChatMemory.analyzeMessageWithMemory]
    | emptyOutput =>
      exact ⟨_, _, _, aum_emotionalPatterns _ _, aum_conversationThemes _ _,
        aum_therapeuticTechniques _ _, by simp, lenTake _, lenTake _⟩
    | garbage =>
      exact ⟨_, _, _, aum_emotionalPatterns _ _, aum_conversationThemes _ _,
        aum_therapeuticTechniques _ _, by simp, lenTake _, lenTake _⟩
    | parsed p =>
      exact ⟨_, _, _, aum_emotionalPatterns _ _, aum_conversationThemes _ _,
        aum_therapeuticTechniques _ _, by simp, lenTake _, lenTake _⟩
  · intro mem message a leo
    refine ⟨alr_history_length _ _, ?_, ?_⟩
    · apply alr_getLast _ _ (Part002.MemoryEntry.mk "leo" "")
      · rw [uma_history]
        have : mem.history ++ [Part002.MemoryEntry.mk "client" message,
            Part002.MemoryEntry.mk "leo" ""] =
            (mem.history ++ [Part002.MemoryEntry.mk "client" message]) ++
              [Part002.MemoryEntry.mk "leo" ""] := by simp
        rw [this]
        exact List.getLast?_concat _
      · rfl
    · refine ⟨if a.emotion = "" then [] else [a.emotion],
        if a.mainThoughts.isEmpty then [] else a.mainThoughts.take 2,
        if a.cognitivePatterns.isEmpty then [] else a.cognitivePatterns,
        headTechTail a.recommendedTechniques, ?_, ?_, ?_, ?_⟩
      · show (Part002.applyLeoResponse
            (Part002.updateMemoryFromAnalysis mem message a) leo).emotions = _
        rw [alr_emotions, uma_emotions]
      · show (Part002.applyLeoResponse
            (Part002.updateMemoryFromAnalysis mem message a) leo).topics = _
        rw [alr_topics, uma_topics]
      · show (Part002.applyLeoResponse
            (Part002.updateMemoryFromAnalysis mem message a) leo).patterns = _
        rw [alr_patterns, uma_patterns]
      · show (Part002.applyLeoResponse
            (Part002.updateMemoryFromAnalysis mem message a) leo).techniques = _
        rw [alr_techniques, uma_techniques]

/-- C5: processing a turn only appends the user and assistant message pair
to the stored message list, never reordering or removing earlier messages;
the history read handler returns the stored list verbatim, in its original
append order. -/
theorem claim_C5_append_only_history :
    (∀ (ru : Option String) (db : Option ChatSessionRec) (msg : String)
       (tr : Option ProgressTracker.ProgressEntry) (ga : ChatFinal.GenAssessOutcome)
       (gr : GenTextOutcome) (now : Nat),
      ∃ tail,
        msgsOf (ChatFinal.sendMessage ru db msg tr ga gr now).session = msgsOf db ++ tail
        ∧ ((ChatFinal.sendMessage ru db msg tr ga gr now).result.isOk = false → tail = [])
        ∧ ((ChatFinal.sendMessage ru db msg tr ga gr now).result.isOk = true →
            ∃ um am, tail = [um, am] ∧ um.role = .user ∧ um.content = msg
              ∧ am.role = .assistant
              ∧ (ChatFinal.sendMessage ru db msg tr ga gr now).result = .ok am.content))
    ∧ (∀ (ru : Option String) (db : Option ChatSessionRec) (ms : List ChatMessage),
        ChatFinal.getChatHistory ru db = .okMessages ms →
        ∃ s, db = some s ∧ ms = s.messages) := by
  constructor
  · intro ru db msg tr ga gr now
    cases ru with
    | none =>
      refine ⟨[], by simp [ChatFinal.sendMessage, msgsOf], fun _ => rfl, fun h => ?_⟩
      exact absurd h (by simp [ChatFinal.sendMessage, ChatFinal.SendResult.isOk])
    | some uid =>
      cases db with
      | none =>
        refine ⟨[], by simp [ChatFinal.sendMessage, msgsOf], fun _ => rfl, fun h => ?_⟩
        exact absurd h (by simp [ChatFinal.sendMessage, ChatFinal.SendResult.isOk])
      | some s =>
        by_cases hu : s.userId ≠ uid
        · refine ⟨[], ?_, fun _ => rfl, fun h => ?_⟩
          · simp [ChatFinal.sendMessage, if_pos hu, msgsOf]
          · rw [show (ChatFinal.sendMessage (some uid) (some s) msg tr ga gr now).result =
                .forbidden by simp [ChatFinal.sendMessage, if_pos hu]] at h
            exact Bool.noConfusion h
        · cases ga with
          | throws =>
            refine ⟨[], ?_, fun _ => rfl, fun h => ?_⟩
            · simp [ChatFinal.sendMessage, if_neg hu, msgsOf]
            · rw [show (ChatFinal.sendMessage (some uid) (some s) msg tr .throws gr now).result =
                  .serverError by simp [ChatFinal.sendMessage, if_neg hu]] at h
              exact Bool.noConfusion h
          | unparsable =>
            cases gr with
            | throws =>
              refine ⟨[], ?_, fun _ => rfl, fun h => ?_⟩
              · simp [ChatFinal.sendMessage, if_neg hu, msgsOf]
              · rw [show (ChatFinal.sendMessage (some uid) (some s) msg tr .unparsable
                    .throws now).result = .serverError by
                  simp [ChatFinal.sendMessage, if_neg hu]] at h
                exact Bool.noConfusion h
            | returns c =>
              simp only [ChatFinal.sendMessage, if_neg hu]
              exact ⟨_, rfl, fun h => Bool.noConfusion h,
                fun _ => ⟨_, _, rfl, rfl, rfl, rfl, rfl⟩⟩
          | parsed a =>
            cases gr with
            | throws =>
              refine ⟨[], ?_, fun _ => rfl, fun h => ?_⟩
              · simp [ChatFinal.sendMessage, if_neg hu, msgsOf]
              · rw [show (ChatFinal.sendMessage (some uid) (some s) msg tr (.parsed a)
                    .throws now).result = .serverError by
                  simp [ChatFinal.sendMessage, if_neg hu]] at h
                exact Bool.noConfusion h
            | returns c =>
              simp only [ChatFinal.sendMessage, if_neg hu]
              exact ⟨_, rfl, fun h => Bool.noConfusion h,
                fun _ => ⟨_, _, rfl, rfl, rfl, rfl, rfl⟩⟩
  · intro ru db ms h
    cases ru with
    | none => exact absurd h (by simp [ChatFinal.getChatHistory])
    | some uid =>
      cases db with
      | none => exact absurd h (by simp [ChatFinal.getChatHistory])
      | some s =>
        by_cases hu : s.userId ≠ uid
        · rw [show ChatFinal.getChatHistory (some uid) (some s) = .forbidden by
            simp [ChatFinal.getChatHistory, if_pos hu]] at h
          exact absurd h (by simp)
        · rw [show ChatFinal.getChatHistory (some uid) (some s) = .okMessages s.messages by
            simp [ChatFinal.getChatHistory, if_neg hu]] at h
          cases h with
          | refl => exact ⟨s, rfl, rfl⟩

/-- C5 witness at a concrete successful turn. -/
theorem claim_C5_witness :
    ∃ tail,
      msgsOf (ChatFinal.sendMessage (some "u1") (some thanksSession) "hello" none
          .unparsable (.returns "Take care of yourself.") 5).session =
        msgsOf (some thanksSession) ++ tail
      ∧ ((ChatFinal.sendMessage (some "u1") (some thanksSession) "hello" none
          .unparsable (.returns "Take care of yourself.") 5).result.isOk = false → tail = [])
      ∧ ((ChatFinal.sendMessage (some "u1") (some thanksSession) "hello" none
          .unparsable (.returns "Take care of yourself.") 5).result.isOk = true →
          ∃ um am, tail = [um, am] ∧ um.role = .user ∧ um.content = "hello"
            ∧ am.role = .assistant
            ∧ (ChatFinal.sendMessage (some "u1") (some thanksSession) "hello" none
                .unparsable (.returns "Take care of yourself.") 5).result = .ok am.content) :=
  claim_C5_append_only_history.1 (some "u1") (some thanksSession) "hello" none
    .unparsable (.returns "Take care of yourself.") 5

/-- C4 counterexample: for the utterance thanks-that-helps-a-lot the turn
handler still invokes the generative capability for the reply step and the
session status stays active instead of becoming completed; there is no
conversation-close classifier in the code. -/
theorem claim_C4_counterexample :
    (ChatFinal.sendMessage (some "u1") (some thanksSession) "thanks, that helps a lot"
        none .unparsable (.returns "Take care of yourself.") 5).replyCalled = true
    ∧ statusOf (ChatFinal.sendMessage (some "u1") (some thanksSession)
        "thanks, that helps a lot" none .unparsable
        (.returns "Take care of yourself.") 5).session = some .active
    ∧ thanksSession.status = .active := by
  refine ⟨by decide, by decide, rfl⟩

/-- C4 amended: message processing never changes the session status, and
every successfully processed turn invokes the generative capability for
the reply step; no close detection exists. -/
theorem claim_C4_amended :
    ∀ (ru : Option String) (db : Option ChatSessionRec) (msg : String)
      (tr : Option ProgressTracker.ProgressEntry) (ga : ChatFinal.GenAssessOutcome)
      (gr : GenTextOutcome) (now : Nat),
      statusOf (ChatFinal.sendMessage ru db msg tr ga gr now).session = statusOf db
      ∧ ((ChatFinal.sendMessage ru db msg tr ga gr now).result.isOk = true →
          (ChatFinal.sendMessage ru db msg tr ga gr now).replyCalled = true) := by
  intro ru db msg tr ga gr now
  constructor
  · unfold ChatFinal.sendMessage
    repeat' split
    all_goals simp [statusOf]
  · unfold ChatFinal.sendMessage
    repeat' split
    all_goals simp [ChatFinal.SendResult.isOk]

/-- C4 witness at a concrete turn. -/
theorem claim_C4_witness :
    statusOf (ChatFinal.sendMessage (some "u1") (some thanksSession) "hello" none
        .unparsable (.returns "Fine.") 0).session = statusOf (some thanksSession)
    ∧ ((ChatFinal.sendMessage (some "u1") (some thanksSession) "hello" none
        .unparsable (.returns "Fine.") 0).result.isOk = true →
        (ChatFinal.sendMessage (some "u1") (some thanksSession) "hello" none
          .unparsable (.returns "Fine.") 0).replyCalled = true) :=
  claim_C4_amended (some "u1") (some thanksSession) "hello" none .unparsable
    (.returns "Fine.") 0

/-- C8: the session read handler getChatSession performs no ownership
check at all: whatever authenticated caller the request carries, even none
or one different from the owner, the full session document is returned.
This contradicts the owner-only access rule that every sibling handler
enforces, so the code, not the claim, is at fault. -/
theorem claim_C8_getchatsession_no_auth :
    ∀ (caller : Option String) (s : ChatSessionRec),
      ChatFinal.getChatSession caller (some s) = .okSession s := by
  intro caller s
  rfl

/-- C6: rebuilding SessionMemory from cold is deterministic: two
independent calls with caches that both miss the session produce equal
derived lists and an equal progress scalar, whatever else the caches hold;
this holds for the enhanced-memory rebuild and for the part_002 rebuild. -/
theorem claim_C6_cold_rebuild_deterministic :
    (∀ (c1 c2 : List (String × ChatMemory.SessionMemory)) (sid : String)
       (db : Option ChatSessionRec),
      ChatMemory.lookupCache c1 sid = none → ChatMemory.lookupCache c2 sid = none →
      (ChatMemory.getSessionMemory c1 sid db).1 = (ChatMemory.getSessionMemory c2 sid db).1)
    ∧ (∀ (d1 d2 : List (String × Part002.SessionMemory)) (sid : String)
        (db : Option ChatSessionRec),
        Part002.lookupCache d1 sid = none → Part002.lookupCache d2 sid = none →
        (Part002.getSessionMemory d1 sid db).1 = (Part002.getSessionMemory d2 sid db).1) := by
  constructor
  · intro c1 c2 sid db h1 h2
    simp [ChatMemory.getSessionMemory, h1, h2]
  · intro d1 d2 sid db h1 h2
    simp [Part002.getSessionMemory, h1, h2]

/-- C6 witness: an empty cache and a cache holding an unrelated session
yield the same rebuilt memory. -/
theorem claim_C6_witness :
    (ChatMemory.getSessionMemory [] "s1" none).1 =
      (ChatMemory.getSessionMemory [("other", ChatMemory.defaultSessionMemory)] "s1" none).1 :=
  claim_C6_cold_rebuild_deterministic.1 [] [("other", ChatMemory.defaultSessionMemory)]
    "s1" none rfl (by decide)

/- Helper lemmas for the progress aggregator. -/

/-- Characterization of the progress accumulator after replaying recorded
turns onto an existing entry. -/
theorem trackerFold_shape (turns : List (CBTAssessment × Nat)) :
    ∀ (p0 : ProgressTracker.ProgressEntry),
      ∃ p1,
        turns.foldl (fun t p => some (ProgressTracker.updateProgress t p.1 p.2))
            (some p0) = some p1
        ∧ p1.emotionalIntensityTrend =
            p0.emotionalIntensityTrend ++
              turns.map (fun p => p.1.emotionalResponse.intensity)
        ∧ p1.techniquesUsed =
            p0.techniquesUsed ++ (turns.map (fun p => p.1.recommendedCbtTechniques)).flatten
        ∧ p1.sessionCount = p0.sessionCount + turns.length := by
  induction turns with
  | nil => intro p0; exact ⟨p0, rfl, by simp, by simp, by simp⟩
  | cons t ts ih =>
    intro p0
    obtain ⟨p1, hfold, htrend, htech, hcount⟩ :=
      ih (ProgressTracker.updateProgress (some p0) t.1 t.2)
    refine ⟨p1, hfold, ?_, ?_, ?_⟩
    · rw [htrend]
      simp [ProgressTracker.updateProgress]
    · rw [htech]
      simp [ProgressTracker.updateProgress]
    · rw [hcount]
      simp [ProgressTracker.updateProgress]
      omega

/-- The trend label of a nonempty list compares its last entry against its
first. -/
theorem trendLabel_eq (l : List ℚ) (hl : l ≠ []) :
    ProgressTracker.trendLabel l =
      (if l.getLastD 0 < l.headD 0 then "improving" else "stable") := by
  match l, hl with
  | c :: cs, _ =>
    cases hx : (c :: cs).getLast? with
    | none => exact absurd (List.getLast?_eq_none_iff.mp hx) (by simp)
    | some x =>
      unfold ProgressTracker.trendLabel
      rw [hx, show (c :: cs).head? = some c from rfl]
      simp only [List.getLastD_eq_getLast?, hx, Option.getD_some,
        List.headD_eq_head?_getD, show (c :: cs).head? = some c from rfl]

/-- C9 amended: the progress summary is null exactly when no turn was
recorded; otherwise it reports the turn count, the mean of the recorded
intensities rounded to one decimal place, the number of distinct
techniques seen, and a trend label obtained by comparing the most recent
recorded intensity against the first. -/
theorem claim_C9_amended :
    ProgressTracker.getProgressSummary none = none
    ∧ ProgressTracker.getProgressSummary (trackerOf []) = none
    ∧ (∀ (turns : List (CBTAssessment × Nat)), turns ≠ [] →
        ∃ s, ProgressTracker.getProgressSummary (trackerOf turns) = some s
          ∧ s.sessionsCompleted = turns.length
          ∧ s.averageEmotionalIntensity =
              (ProgressTracker.jsRound
                (meanQ (turns.map fun p => p.1.emotionalResponse.intensity) * 10) : ℚ) / 10
          ∧ s.techniquesExperienced =
              ((turns.map fun p => p.1.recommendedCbtTechniques).flatten).dedup.length
          ∧ s.trend =
              (if (turns.map fun p => p.1.emotionalResponse.intensity).getLastD 0 <
                  (turns.map fun p => p.1.emotionalResponse.intensity).headD 0
               then "improving" else "stable")) := by
  refine ⟨rfl, rfl, ?_⟩
  intro turns hne
  match turns, hne with
  | t :: ts, _ =>
    obtain ⟨p1, hfold, htrend, htech, hcount⟩ :=
      trackerFold_shape ts (ProgressTracker.updateProgress none t.1 t.2)
    have hTrackerEq : trackerOf (t :: ts) = some p1 := hfold
    have hTrendList : p1.emotionalIntensityTrend =
        (t :: ts).map (fun p => p.1.emotionalResponse.intensity) := by
      rw [htrend]
      simp [ProgressTracker.updateProgress, ProgressTracker.emptyEntry]
    have hTechList : p1.techniquesUsed =
        ((t :: ts).map (fun p => p.1.recommendedCbtTechniques)).flatten := by
      rw [htech]
      simp [ProgressTracker.updateProgress, ProgressTracker.emptyEntry]
    have hCountEq : p1.sessionCount = (t :: ts).length := by
      rw [hcount]
      simp [ProgressTracker.updateProgress, ProgressTracker.emptyEntry]
      omega
    rw [hTrackerEq]
    simp only [ProgressTracker.getProgressSummary]
    refine ⟨_, rfl, hCountEq, ?_, ?_, ?_⟩
    · rw [hTrendList, meanQ]
    · rw [hTechList]
    · rw [hTrendList, trendLabel_eq _ (by simp)]

/-- C9 counterexample: for recorded intensities one, two and two the
summary reports seventeen tenths, which is not the mean five thirds; the
returned value is the mean rounded to one decimal place, not the mean. -/
theorem claim_C9_counterexample :
    (ProgressTracker.getProgressSummary (trackerOf cexTurns)).map
        (·.averageEmotionalIntensity) = some (17 / 10)
    ∧ meanQ (cexTurns.map fun p => p.1.emotionalResponse.intensity) = 5 / 3
    ∧ ((17 : ℚ) / 10) ≠ 5 / 3 := by
  refine ⟨?_, ?_, by norm_num⟩
  · simp only [cexTurns, cexAssess, trackerOf, List.foldl,
      ProgressTracker.updateProgress, ProgressTracker.emptyEntry,
      ProgressTracker.getProgressSummary, Option.getD, Option.map,
      ProgressTracker.jsRound]
    norm_num [List.dedup, ProgressTracker.trendLabel, Int.floor_eq_iff]
  · simp only [cexTurns, cexAssess, meanQ, List.map, List.sum, List.length]
    norm_num

/-- C9 witness at the three concrete recorded turns. -/
theorem claim_C9_witness :
    ∃ s, ProgressTracker.getProgressSummary (trackerOf cexTurns) = some s
      ∧ s.sessionsCompleted = cexTurns.length
      ∧ s.averageEmotionalIntensity =
          (ProgressTracker.jsRound
            (meanQ (cexTurns.map fun p => p.1.emotionalResponse.intensity) * 10) : ℚ) / 10
      ∧ s.techniquesExperienced =
          ((cexTurns.map fun p => p.1.recommendedCbtTechniques).flatten).dedup.length
      ∧ s.trend =
          (if (cexTurns.map fun p => p.1.emotionalResponse.intensity).getLastD 0 <
              (cexTurns.map fun p => p.1.emotionalResponse.intensity).headD 0
           then "improving" else "stable") :=
  claim_C9_amended.2.2 cexTurns (by simp [cexTurns])
/-- The indicator-keyword scan only bumps progress counters, never the
trust scalar. -/
theorem indicatorStep_trust (m : ChatMemory.SessionMemory) (ind : String) :
    (ChatMemory.indicatorStep m ind).context.trustLevel = m.context.trustLevel := by
  simp only [ChatMemory.indicatorStep]
  repeat' split
  all_goals rfl

/-- Folding the indicator scan over any indicator list keeps the trust
scalar. -/
theorem indicatorFold_trust (inds : List String) (m : ChatMemory.SessionMemory) :
    (inds.foldl ChatMemory.indicatorStep m).context.trustLevel = m.context.trustLevel := by
  induction inds generalizing m with
  | nil => rfl
  | cons i is ih => rw [List.foldl_cons, ih, indicatorStep_trust]

/-- Replaying one stored analysis blob keeps the trust scalar. -/
theorem rebuildMetaStep_trust (a : StoredAnalysis) (mem : ChatMemory.SessionMemory) :
    (ChatMemory.rebuildMetaStep a mem).context.trustLevel = mem.context.trustLevel := by
  simp only [ChatMemory.rebuildMetaStep]
  repeat' split
  all_goals first
    | rfl
    | (rw [indicatorFold_trust]; try rfl)

/-- Replaying one user message keeps the trust scalar. -/
theorem rebuildUserStep_trust (content : String) (mem : ChatMemory.SessionMemory) :
    (ChatMemory.rebuildUserStep content mem).context.trustLevel = mem.context.trustLevel := by
  simp only [ChatMemory.rebuildUserStep]
  repeat' split
  all_goals rfl

/-- One replay step either keeps the trust scalar or raises it by two,
capped at one hundred. -/
theorem rebuildStep_trust_cases (prevIsUser : Bool) (msg : ChatMessage)
    (mem : ChatMemory.SessionMemory) :
    (ChatMemory.rebuildStep prevIsUser msg mem).context.trustLevel = mem.context.trustLevel
    ∨ (ChatMemory.rebuildStep prevIsUser msg mem).context.trustLevel
        = min 100 (mem.context.trustLevel + 2) := by
  simp only [ChatMemory.rebuildStep]
  repeat' split
  all_goals simp [rebuildMetaStep_trust, rebuildUserStep_trust]

/-- One replay step never lowers the trust scalar and keeps it at most
one hundred. -/
theorem rebuildStep_trust_bounds (prevIsUser : Bool) (msg : ChatMessage)
    (mem : ChatMemory.SessionMemory) (h : mem.context.trustLevel ≤ 100) :
    mem.context.trustLevel ≤ (ChatMemory.rebuildStep prevIsUser msg mem).context.trustLevel
    ∧ (ChatMemory.rebuildStep prevIsUser msg mem).context.trustLevel ≤ 100 := by
  rcases rebuildStep_trust_cases prevIsUser msg mem with he | he <;> rw [he]
  · exact ⟨le_refl _, h⟩
  · refine ⟨le_min h ?_, min_le_left _ _⟩
    linarith

/-- The whole replay fold never lowers the trust scalar and keeps it at
most one hundred. -/
theorem rebuildFold_trust_bounds (msgs : List ChatMessage) (prev : Option ChatMessage)
    (mem : ChatMemory.SessionMemory) (h : mem.context.trustLevel ≤ 100) :
    mem.context.trustLevel
      ≤ (ChatMemory.rebuildFold prev msgs mem).context.trustLevel
    ∧ (ChatMemory.rebuildFold prev msgs mem).context.trustLevel ≤ 100 := by
  induction msgs generalizing prev mem with
  | nil => exact ⟨le_refl _, h⟩
  | cons m ms ih =>
    obtain ⟨h1, h2⟩ := rebuildStep_trust_bounds
      (match prev with | some p => p.role == Role.user | none => false) m mem h
    obtain ⟨h3, h4⟩ := ih (some m) _ h2
    exact ⟨le_trans h1 h3, h4⟩

/-- A cold rebuild produces a trust scalar between fifty and one hundred. -/
theorem rebuildSessionMemory_trust_bounds (db : Option ChatSessionRec) :
    50 ≤ (ChatMemory.rebuildSessionMemory db).context.trustLevel
    ∧ (ChatMemory.rebuildSessionMemory db).context.trustLevel ≤ 100 := by
  cases db with
  | none => exact ⟨by decide, by decide⟩
  | some s =>
    simp only [ChatMemory.rebuildSessionMemory]
    split
    · exact ⟨by decide, by decide⟩
    · obtain ⟨h1, h2⟩ := rebuildFold_trust_bounds s.messages none
        ChatMemory.defaultSessionMemory (by decide)
      exact ⟨h1, h2⟩

/-- The post-analysis memory update keeps the trust scalar. -/
theorem analyzeUpdateMemory_trust (p : ChatMemory.ParsedAnalysis)
    (mem : ChatMemory.SessionMemory) :
    (ChatMemory.analyzeUpdateMemory p mem).context.trustLevel
      = mem.context.trustLevel := by
  simp only [ChatMemory.analyzeUpdateMemory]
  repeat' split
  all_goals rfl

/-- The analysis operation keeps the trust scalar for every generative
outcome. -/
theorem analyzeMessageWithMemory_trust (message : String)
    (mem : ChatMemory.SessionMemory) (g : ChatMemory.GenAnalysisOutcome) :
    (ChatMemory.analyzeMessageWithMemory message mem g).2.context.trustLevel
      = mem.context.trustLevel := by
  cases g with
  | throws => rfl
  | emptyOutput => exact analyzeUpdateMemory_trust _ _
  | garbage => exact analyzeUpdateMemory_trust _ _
  | parsed p => exact analyzeUpdateMemory_trust _ _

/-- The per-turn bump sets the trust scalar to three more, capped at one
hundred. -/
theorem turnMemoryUpdate_trust (mem : ChatMemory.SessionMemory) :
    (ChatMemory.turnMemoryUpdate mem).context.trustLevel
      = min 100 (mem.context.trustLevel + 3) := rfl

/-- The preference update sets the trust scalar to ten more, capped at
one hundred. -/
theorem updateUserPreferencesMemory_trust (mem : ChatMemory.SessionMemory)
    (p : ChatMemory.PrefsInput) :
    (ChatMemory.updateUserPreferencesMemory mem p).context.trustLevel
      = min 100 (mem.context.trustLevel + 10) := by
  simp only [ChatMemory.updateUserPreferencesMemory]
  repeat' split
  all_goals rfl

/-- Every reachable session memory keeps trust between fifty and one
hundred. -/
theorem reachable_trust_bounds (mem : ChatMemory.SessionMemory)
    (h : ReachableMemory mem) :
    50 ≤ mem.context.trustLevel ∧ mem.context.trustLevel ≤ 100 := by
  induction h with
  | rebuilt db => exact rebuildSessionMemory_trust_bounds db
  | analyzed mem message g hr ih =>
    rw [analyzeMessageWithMemory_trust]
    exact ih
  | turned mem hr ih =>
    rw [turnMemoryUpdate_trust]
    obtain ⟨ih1, ih2⟩ := ih
    refine ⟨le_min (by norm_num) ?_, min_le_left _ _⟩
    linarith
  | prefs mem p hr ih =>
    rw [updateUserPreferencesMemory_trust]
    obtain ⟨ih1, ih2⟩ := ih
    refine ⟨le_min (by norm_num) ?_, min_le_left _ _⟩
    linarith

/-- C10: the session-memory trust scalar starts at fifty; every memory the
process can reach from a cold rebuild through analysis pushes, per-turn
bumps and preference updates keeps it between fifty (hence within zero)
and one hundred; the analysis update leaves it unchanged, and each replay
step, per-turn bump and preference update adds its positive increment
capped at one hundred, so the scalar never decreases over a session. -/
theorem claim_C10_trust_monotone :
    ChatMemory.defaultSessionMemory.context.trustLevel = 50
    ∧ (∀ mem, ReachableMemory mem →
        50 ≤ mem.context.trustLevel ∧ mem.context.trustLevel ≤ 100)
    ∧ (∀ message mem g,
        (ChatMemory.analyzeMessageWithMemory message mem g).2.context.trustLevel
          = mem.context.trustLevel)
    ∧ (∀ prevIsUser msg mem, mem.context.trustLevel ≤ 100 →
        mem.context.trustLevel
            ≤ (ChatMemory.rebuildStep prevIsUser msg mem).context.trustLevel
          ∧ (ChatMemory.rebuildStep prevIsUser msg mem).context.trustLevel ≤ 100)
    ∧ (∀ mem, (ChatMemory.turnMemoryUpdate mem).context.trustLevel
          = min 100 (mem.context.trustLevel + 3)
        ∧ (mem.context.trustLevel ≤ 100 →
            mem.context.trustLevel
              ≤ (ChatMemory.turnMemoryUpdate mem).context.trustLevel))
    ∧ (∀ mem p,
        (ChatMemory.updateUserPreferencesMemory mem p).context.trustLevel
          = min 100 (mem.context.trustLevel + 10)
        ∧ (mem.context.trustLevel ≤ 100 →
            mem.context.trustLevel
              ≤ (ChatMemory.updateUserPreferencesMemory mem p).context.trustLevel)) := by
  refine ⟨rfl, reachable_trust_bounds, analyzeMessageWithMemory_trust,
    rebuildStep_trust_bounds, ?_, ?_⟩
  · intro mem
    refine ⟨turnMemoryUpdate_trust mem, ?_⟩
    intro h
    rw [turnMemoryUpdate_trust]
    exact le_min h (by linarith)
  · intro mem p
    refine ⟨updateUserPreferencesMemory_trust mem p, ?_⟩
    intro h
    rw [updateUserPreferencesMemory_trust]
    exact le_min h (by linarith)

/-- C10 witness: the trust invariants instantiated at the default memory
and the cold rebuild of an absent session. -/
theorem claim_C10_witness :
    (50 ≤ (ChatMemory.rebuildSessionMemory none).context.trustLevel
      ∧ (ChatMemory.rebuildSessionMemory none).context.trustLevel ≤ 100)
    ∧ (ChatMemory.defaultSessionMemory.context.trustLevel
          ≤ (ChatMemory.rebuildStep false
              { role := .user, content := "hi", timestamp := 0, metadata := none }
              ChatMemory.defaultSessionMemory).context.trustLevel
        ∧ (ChatMemory.rebuildStep false
            { role := .user, content := "hi", timestamp := 0, metadata := none }
            ChatMemory.defaultSessionMemory).context.trustLevel ≤ 100)
    ∧ ChatMemory.defaultSessionMemory.context.trustLevel
        ≤ (ChatMemory.turnMemoryUpdate ChatMemory.defaultSessionMemory).context.trustLevel
    ∧ ChatMemory.defaultSessionMemory.context.trustLevel
        ≤ (ChatMemory.updateUserPreferencesMemory ChatMemory.defaultSessionMemory
            {}).context.trustLevel :=
  ⟨claim_C10_trust_monotone.2.1 _ (ReachableMemory.rebuilt none),
   claim_C10_trust_monotone.2.2.2.1 false _ _ (by decide),
   (claim_C10_trust_monotone.2.2.2.2.1 ChatMemory.defaultSessionMemory).2 (by decide),
   (claim_C10_trust_monotone.2.2.2.2.2 ChatMemory.defaultSessionMemory {}).2 (by decide)⟩
